import Mathlib

set_option maxRecDepth 8192

/-!
Shallow embedding of the RDS/RBDS decoder core of
`src/lib/libv4l2rds/libv4l2rds.c` (thomaschristensen/v4l2-rds-ctl).

C machine integers are modelled as `Nat` with explicit `% 2^w` reductions at
the points where the C types truncate.  The public `struct v4l2_rds` handle and
the constants of `lib/include/libv4l2rds.h` / `linux/videodev2.h` are not part
of `src/`; their shape is modelled from the spec (sections 3 and 6) and from
their use inside the source file, as noted at each definition.
-/

/-- Modelled from the spec (section 6): one raw block carries two data bytes
(msb, lsb) and a status byte holding a block id in its low 3 bits plus a
`corrected` flag and an `uncorrectable` flag (`struct v4l2_rds_data` of
`linux/videodev2.h`, which is outside this repository).  The two flag bits are
represented as explicit Booleans. -/
structure RdsData where
  lsb : Nat
  msb : Nat
  blockId : Nat
  corrected : Bool
  uncorrectable : Bool
deriving Repr, DecidableEq

def zeroRdsData : RdsData := ⟨0, 0, 0, false, false⟩

/-- `struct v4l2_rds_group`: group-type independent decoding of one group
(fields and widths as used in the source; `group_version` holds the character
code 'A' = 65 / 'B' = 66, and is set to 0 when the source invalidates a stored
TMC group). -/
structure RdsGroup where
  pi : Nat
  group_version : Nat
  group_id : Nat
  data_b_lsb : Nat
  data_c_msb : Nat
  data_c_lsb : Nat
  data_d_msb : Nat
  data_d_lsb : Nat
deriving Repr, DecidableEq

def zeroRdsGroup : RdsGroup := ⟨0, 0, 0, 0, 0, 0, 0, 0⟩

/-- `struct v4l2_rds_statistics` (modelled from the spec's data model and the
source's uses: five counters plus a per-group-type counter array). -/
structure RdsStatistics where
  block_cnt : Nat
  block_error_cnt : Nat
  block_corrected_cnt : Nat
  group_cnt : Nat
  group_error_cnt : Nat
  group_type_cnt : List Nat
deriving Repr, DecidableEq

def zeroRdsStatistics : RdsStatistics := ⟨0, 0, 0, 0, 0, List.replicate 16 0⟩

/-- `struct v4l2_rds_oda`: one open-data announcement. -/
structure RdsOda where
  group_id : Nat
  group_version : Nat
  aid : Nat
deriving Repr, DecidableEq

/-- `struct v4l2_rds_af_set`: the announced count plus the list of stored
frequencies (the C fixed array with its `size` counter is modelled as the list
of its first `size` entries). -/
structure RdsAfSet where
  announced_af : Nat
  af : List Nat
deriving Repr, DecidableEq

def zeroRdsAfSet : RdsAfSet := ⟨0, []⟩

/-- `struct v4l2_tmc_additional`: one labelled additional-information field of
a multi-group TMC message. -/
structure TmcAdditional where
  label : Nat
  data : Nat
deriving Repr, DecidableEq

/-- `struct v4l2_tmc_additional_set`, modelled as the list of its `size` valid
entries (stale array entries beyond `size` are not observable). -/
structure TmcAdditionalSet where
  fields : List TmcAdditional
deriving Repr, DecidableEq

/-- `struct v4l2_rds_tmc_msg`.  The C local copies in
`rds_decode_tmc_single_group` leave some members uninitialized; the model uses
0 for them, as noted there. -/
structure RdsTmcMsg where
  length : Nat
  dp : Nat
  extent : Nat
  event : Nat
  location : Nat
  follow_diversion : Bool
  neg_direction : Bool
  additional : TmcAdditionalSet
deriving Repr, DecidableEq

def zeroRdsTmcMsg : RdsTmcMsg := ⟨0, 0, 0, 0, 0, false, false, ⟨[]⟩⟩

/-- `struct v4l2_rds_tmc` (modelled from the spec's data model: TMC system
parameters plus the last accepted message). -/
structure RdsTmc where
  ltn : Nat
  afi : Bool
  enhanced_mode : Bool
  mgs : Nat
  gap : Nat
  sid : Nat
  t_a : Nat
  t_w : Nat
  t_d : Nat
  tmc_msg : RdsTmcMsg
deriving Repr, DecidableEq

def zeroRdsTmc : RdsTmc := ⟨0, false, false, 0, 0, 0, 0, 0, 0, zeroRdsTmcMsg⟩

/-- The broken-down time handed by `rds_decode_mjd` to the external libc
`mktime`.  The published time is modelled as this structure: `mktime` is an
external collaborator (libc), outside the source. -/
structure CTm where
  tm_sec : Nat
  tm_min : Nat
  tm_hour : Nat
  tm_mday : Int
  tm_mon : Int
  tm_year : Int
  tm_gmtoff : Int
deriving Repr, DecidableEq

def zeroCTm : CTm := ⟨0, 0, 0, 0, 0, 0, 0⟩

/-- `struct v4l2_rds` (the public handle).  Declared in the library header
outside `src/`; fields are modelled from the spec's data model (section 3) and
from every access the source makes.  `valid_fields`, `decode_information` and
the updated-fields masks are `Nat` bit sets over the constants below. -/
structure V4l2Rds where
  is_rbds : Bool
  valid_fields : Nat
  decode_information : Nat
  pi : Nat
  ps : List Nat
  pty : Nat
  ptyn : List Nat
  ptyn_ab_flag : Bool
  rt_length : Nat
  rt : List Nat
  rt_ab_flag : Bool
  di : Nat
  ecc : Nat
  lc : Nat
  time : CTm
  tp : Bool
  ta : Bool
  ms : Bool
  rds_statistics : RdsStatistics
  rds_oda : List RdsOda
  rds_af : RdsAfSet
  tmc : RdsTmc
deriving Repr, DecidableEq

def zeroV4l2Rds : V4l2Rds :=
  { is_rbds := false
    valid_fields := 0
    decode_information := 0
    pi := 0
    ps := List.replicate 8 0
    pty := 0
    ptyn := List.replicate 8 0
    ptyn_ab_flag := false
    rt_length := 0
    rt := List.replicate 64 0
    rt_ab_flag := false
    di := 0
    ecc := 0
    lc := 0
    time := zeroCTm
    tp := false
    ta := false
    ms := false
    rds_statistics := zeroRdsStatistics
    rds_oda := []
    rds_af := zeroRdsAfSet
    tmc := zeroRdsTmc }

/-- `enum rds_state`: the block-assembler state machine. -/
inductive RdsState where
  | rds_empty
  | rds_a_received
  | rds_b_received
  | rds_c_received
deriving Repr, DecidableEq

/-- `struct rds_private_state`. -/
structure RdsPrivateState where
  handle : V4l2Rds
  decode_state : RdsState
  new_pi : Nat
  new_ps : List Nat
  new_ps_valid : List Nat
  new_pty : Nat
  new_ptyn : List (List Nat)
  new_ptyn_valid : List Bool
  new_rt : List Nat
  next_rt_segment : Nat
  new_di : Nat
  next_di_segment : Nat
  new_ecc : Nat
  new_lc : Nat
  new_mjd : Nat
  utc_hour : Nat
  utc_minute : Nat
  utc_offset : Nat
  continuity_id : Nat
  grp_seq_id : Nat
  optional_tmc : List Nat
  prev_tmc_group : RdsGroup
  prev_tmc_sys_group : RdsGroup
  new_tmc_msg : RdsTmcMsg
  rds_group : RdsGroup
  rds_data_raw : List RdsData
deriving Repr, DecidableEq

def zeroPrivateState : RdsPrivateState :=
  { handle := zeroV4l2Rds
    decode_state := .rds_empty
    new_pi := 0
    new_ps := List.replicate 8 0
    new_ps_valid := List.replicate 8 0
    new_pty := 0
    new_ptyn := [List.replicate 4 0, List.replicate 4 0]
    new_ptyn_valid := [false, false]
    new_rt := List.replicate 64 0
    next_rt_segment := 0
    new_di := 0
    next_di_segment := 0
    new_ecc := 0
    new_lc := 0
    new_mjd := 0
    utc_hour := 0
    utc_minute := 0
    utc_offset := 0
    continuity_id := 0
    grp_seq_id := 0
    optional_tmc := List.replicate 4 0
    prev_tmc_group := zeroRdsGroup
    prev_tmc_sys_group := zeroRdsGroup
    new_tmc_msg := zeroRdsTmcMsg
    rds_group := zeroRdsGroup
    rds_data_raw := List.replicate 4 zeroRdsData }

/- Updated-fields / valid-fields bit constants.  Modelled from the spec
(section 6): "a bitset with distinct bits per field (PI, PTY, TP, TA, MS, PS,
RT, DI, AF, ECC, LC, PTYN, TIME, ODA, TMC_SG, TMC_MG, TMC_SYS)"; the header
holding the concrete values is outside `src/`, so distinct bits are assigned
in the spec's order. -/

def V4L2_RDS_PI : Nat := 0x01
def V4L2_RDS_PTY : Nat := 0x02
def V4L2_RDS_TP : Nat := 0x04
def V4L2_RDS_TA : Nat := 0x08
def V4L2_RDS_MS : Nat := 0x10
def V4L2_RDS_PS : Nat := 0x20
def V4L2_RDS_RT : Nat := 0x40
def V4L2_RDS_DI : Nat := 0x80
def V4L2_RDS_AF : Nat := 0x100
def V4L2_RDS_ECC : Nat := 0x200
def V4L2_RDS_LC : Nat := 0x400
def V4L2_RDS_PTYN : Nat := 0x800
def V4L2_RDS_TIME : Nat := 0x1000
def V4L2_RDS_ODA : Nat := 0x2000
def V4L2_RDS_TMC_SG : Nat := 0x4000
def V4L2_RDS_TMC_MG : Nat := 0x8000
def V4L2_RDS_TMC_SYS : Nat := 0x10000

/-- Modelled from the spec (section 4.8 and scenario 5: "B lsb = 0x08
(SINGLE_GROUP bit, duration 0)"): the single-group dispatch bit of block B's
low five bits. -/
def V4L2_TMC_SINGLE_GROUP : Nat := 0x08

/-- Modelled from the spec (section 4.8): the tuning-information dispatch bit
of block B's low five bits (the remaining dispatch bit, bit 4). -/
def V4L2_TMC_TUNING_INFO : Nat := 0x10

/- Decoder-identification flag bits (spec section 4.3: four flag bits chosen
by segment 0..3; header constants outside `src/`, modelled as four distinct
bits in segment order). -/

def V4L2_RDS_FLAG_STEREO : Nat := 0x01
def V4L2_RDS_FLAG_ARTIFICIAL_HEAD : Nat := 0x02
def V4L2_RDS_FLAG_COMPRESSED : Nat := 0x04
def V4L2_RDS_FLAG_STATIC_PTY : Nat := 0x08

/-- Modelled from the spec: capacity of the ODA set (`MAX_ODA_CNT` of the
library header, which is outside `src/`). -/
def MAX_ODA_CNT : Nat := 18

/-- Modelled from the spec: capacity of the AF set (`MAX_AF_CNT`); section
4.3 caps the announced count at 249 - 224 = 25. -/
def MAX_AF_CNT : Nat := 25

/-- `set_bit`: set or clear `bitmask` inside the uint8 `input`. -/
def set_bit (input bitmask : Nat) (bitvalue : Bool) : Nat :=
  if bitvalue then input ||| bitmask else input &&& (0xff ^^^ bitmask)

/-- `get_bitmask`: a mask with `bit_cnt` low bits set. -/
def get_bitmask (bit_cnt : Nat) : Nat :=
  (1 <<< bit_cnt) - 1

/-- `rds_decode_a`: block A always carries the PI code; it is stored raw into
the current group, and a changed PI is only published after matching the
pending `new_pi`. -/
def rds_decode_a (s : RdsPrivateState) (rds_data : RdsData) : RdsPrivateState × Nat :=
  let pi := (rds_data.msb <<< 8) ||| rds_data.lsb
  let s := { s with rds_group := { s.rds_group with pi := pi } }
  if pi ≠ s.handle.pi ∧ pi = s.new_pi then
    ({ s with handle := { s.handle with
        pi := pi
        valid_fields := s.handle.valid_fields ||| V4L2_RDS_PI } }, V4L2_RDS_PI)
  else if pi ≠ s.handle.pi ∧ pi ≠ s.new_pi then
    ({ s with new_pi := pi }, 0)
  else
    (s, 0)

/-- `rds_decode_b`: block B carries group id, version, TP flag, PTY and five
group-type dependent bits.  The C source computes the TP flag as
`(bool)rds_data->msb & 0x04`, where the cast binds before `&`; that
computation is kept verbatim. -/
def rds_decode_b (s : RdsPrivateState) (rds_data : RdsData) : RdsPrivateState × Nat :=
  let grp := { s.rds_group with
    group_id := rds_data.msb >>> 4,
    group_version := if rds_data.msb &&& 0x08 ≠ 0 then 66 else 65 }
  let traffic_prog : Bool := ((if rds_data.msb ≠ 0 then (1 : Nat) else 0) &&& 0x04) != 0
  let handle := s.handle
  let updated : Nat := 0
  let (handle, updated) :=
    if handle.tp ≠ traffic_prog then
      ({ handle with tp := traffic_prog }, updated ||| V4L2_RDS_TP)
    else
      (handle, updated)
  let handle := { handle with valid_fields := handle.valid_fields ||| V4L2_RDS_TP }
  let grp := { grp with data_b_lsb := rds_data.lsb &&& 0x1f }
  let pty := (((rds_data.msb <<< 3) ||| (rds_data.lsb >>> 5)) % 256) &&& 0x1f
  if handle.pty = pty then
    ({ s with handle := handle, rds_group := grp, new_pty := pty }, updated)
  else if s.new_pty = pty then
    ({ s with
        rds_group := grp
        handle := { handle with
          pty := s.new_pty
          valid_fields := handle.valid_fields ||| V4L2_RDS_PTY } },
      updated ||| V4L2_RDS_PTY)
  else
    ({ s with handle := handle, rds_group := grp, new_pty := pty }, updated)

/-- `rds_decode_c`: stash the raw bytes of block C (or C') in the group. -/
def rds_decode_c (s : RdsPrivateState) (rds_data : RdsData) : RdsPrivateState :=
  { s with rds_group := { s.rds_group with
      data_c_msb := rds_data.msb, data_c_lsb := rds_data.lsb } }

/-- `rds_decode_d`: stash the raw bytes of block D in the group. -/
def rds_decode_d (s : RdsPrivateState) (rds_data : RdsData) : RdsPrivateState :=
  { s with rds_group := { s.rds_group with
      data_d_msb := rds_data.msb, data_d_lsb := rds_data.lsb } }

/-- `rds_compare_group`: field-wise equality of two groups, used by the
TMC double-reception checks. -/
def rds_compare_group (a b : RdsGroup) : Bool :=
  a.pi == b.pi && a.group_version == b.group_version && a.group_id == b.group_id &&
  a.data_b_lsb == b.data_b_lsb &&
  a.data_c_lsb == b.data_c_lsb && a.data_c_msb == b.data_c_msb &&
  a.data_d_lsb == b.data_d_lsb && a.data_d_msb == b.data_d_msb

/-- The `additional_lut` of `rds_tmc_decode_additional` (ISO 14819-1 5.5.1). -/
def additional_lut : List Nat := [3, 3, 5, 5, 5, 8, 8, 8, 8, 11, 16, 16, 16, 16, 0, 0]

/-- The data-extraction phase of one iteration of the loop in
`rds_tmc_decode_additional`.  Returns `none` when the C `break` fires.  Two
slips of the source are kept verbatim: in the block-overhang case the second
half is OR-ed into `label` (not `data`), and in the ordinary case the source
executes `data += len % data_len` instead of advancing `pos`.  `label` is a
uint8 and `data` a uint16 in C, hence the `% 256` / `% 65536` reductions. -/
def rds_tmc_additional_data_step (optional : List Nat) (length pos block_idx label : Nat) :
    Option (Nat × Nat × Nat × Nat) :=
  let len := additional_lut.getD label 0
  if pos + len > 28 then
    let o_len := len - (28 - pos)
    let len := 28 - pos
    let data := ((optional.getD block_idx 0 >>> (32 - pos - len + o_len)) &&&
      get_bitmask (len + o_len)) % 65536
    let block_idx := block_idx + 1
    if block_idx ≥ length then none
    else
      let pos := 0
      let label := (label ||| (optional.getD block_idx 0 >>> (32 - pos - o_len))) % 256
      some (pos, block_idx, label, data)
  else
    let data := ((optional.getD block_idx 0 >>> (32 - pos - len)) &&& get_bitmask len) % 65536
    let data := (data + len % 28) % 65536
    let block_idx := if pos = 0 then block_idx + 1 else block_idx
    some (pos, block_idx, label, data)

/-- The loop of `rds_tmc_decode_additional`, one recursive step per loop
iteration (`rem` counts the remaining iterations of `for (i = 0; i <
msg->length; i++)`).  The label-extraction phase is inline; `acc` collects the
stored `(label, data)` fields. -/
def rds_tmc_additional_loop (optional : List Nat) (length : Nat) :
    Nat → Nat → Nat → List TmcAdditional → List TmcAdditional
  | 0, _, _, acc => acc
  | rem + 1, pos, block_idx, acc =>
    let labelStep : Option (Nat × Nat × Nat) :=
      if pos + 4 > 28 then
        let o_len := 4 - (28 - pos)
        let len := 28 - pos
        let label := ((optional.getD block_idx 0 >>> (32 - pos - len + o_len)) &&&
          get_bitmask (len + o_len)) % 256
        let block_idx := block_idx + 1
        if block_idx ≥ length then none
        else
          let pos := 0
          let label := (label ||| (optional.getD block_idx 0 >>> (32 - pos - o_len))) % 256
          some (pos, block_idx, label)
      else
        let label := ((optional.getD block_idx 0 >>> (32 - pos - 4)) &&& get_bitmask 4) % 256
        let pos := pos + 4 % 28
        let block_idx := if pos = 0 then block_idx + 1 else block_idx
        if block_idx ≥ length then none
        else some (pos, block_idx, label)
    match labelStep with
    | none => acc
    | some (pos, block_idx, label) =>
      match rds_tmc_additional_data_step optional length pos block_idx label with
      | none => acc
      | some (pos, block_idx, label, data) =>
        if label = 15 then
          rds_tmc_additional_loop optional length rem pos block_idx acc
        else
          rds_tmc_additional_loop optional length rem pos block_idx (acc ++ [⟨label, data⟩])

/-- `rds_tmc_decode_additional`: re-extract the additional-information fields
of the published multi-group TMC message from the buffered optional blocks. -/
def rds_tmc_decode_additional (s : RdsPrivateState) : RdsPrivateState :=
  let len := s.handle.tmc.tmc_msg.length
  let fields := rds_tmc_additional_loop s.optional_tmc len len 0 0 []
  { s with handle := { s.handle with tmc := { s.handle.tmc with
      tmc_msg := { s.handle.tmc.tmc_msg with additional := ⟨fields⟩ } } } }

/-- Bit `j` of the concatenated optional bit array of the spec, section 4.8.3:
the used 28 bits of each slot sit in bits 31..28-27..4 of the stored word, so
array position `j` is bit `31 - j % 28` of slot `j / 28`. -/
def spec_optional_bit (optional : List Nat) (j : Nat) : Nat :=
  (optional.getD (j / 28) 0 >>> (31 - j % 28)) &&& 1

/-- Read `len` bits of the concatenated optional bit array starting at `pos`,
most significant first (spec, section 4.8.3). -/
def spec_read_bits (optional : List Nat) (pos len : Nat) : Nat :=
  (List.range len).foldl (fun acc k => (acc <<< 1) ||| spec_optional_bit optional (pos + k)) 0

/-- Modelled from the spec, section 4.8.3: repeatedly read a 4-bit label and
`additional_lut[label]` data bits from the concatenated bit array; skip label
15; stop when the next read would require a slot beyond `length`. -/
def spec_tmc_decode_additional_loop (optional : List Nat) (length : Nat) :
    Nat → Nat → List TmcAdditional → List TmcAdditional
  | 0, _, acc => acc
  | fuel + 1, pos, acc =>
    if pos + 4 > 28 * length then acc
    else
      let label := spec_read_bits optional pos 4
      let len := additional_lut.getD label 0
      if pos + 4 + len > 28 * length then acc
      else
        let data := spec_read_bits optional (pos + 4) len
        if label = 15 then
          spec_tmc_decode_additional_loop optional length fuel (pos + 4 + len) acc
        else
          spec_tmc_decode_additional_loop optional length fuel (pos + 4 + len)
            (acc ++ [⟨label, data⟩])

/-- Modelled from the spec, section 4.8.3: the reference extraction of the
additional fields from the used `28 * length` bits of the optional slots. -/
def spec_tmc_decode_additional (optional : List Nat) (length : Nat) : List TmcAdditional :=
  spec_tmc_decode_additional_loop optional length (28 * length) 0 []

/-- `rds_decode_tmc_system`: TMC system information from 3A groups; decoded
only after the same group was received twice (`prev_tmc_sys_group`). -/
def rds_decode_tmc_system (s : RdsPrivateState) : RdsPrivateState × Nat :=
  if ¬ rds_compare_group s.prev_tmc_sys_group s.rds_group then
    ({ s with prev_tmc_sys_group := s.rds_group }, 0x00)
  else
    let group := s.rds_group
    let variant_code := s.rds_group.data_c_msb >>> 6
    if variant_code = 0x00 then
      ({ s with handle := { s.handle with tmc := { s.handle.tmc with
          ltn := ((group.data_c_msb &&& 0x0f) <<< 2) ||| (group.data_c_lsb >>> 6)
          afi := (group.data_c_lsb &&& 0x20) != 0
          enhanced_mode := (group.data_c_lsb &&& 0x10) != 0
          mgs := group.data_c_lsb &&& 0x0f } } }, V4L2_RDS_TMC_SYS)
    else if variant_code = 0x01 then
      let tmc := { s.handle.tmc with
        gap := (group.data_c_msb &&& 0x30) >>> 4
        sid := ((group.data_c_msb &&& 0x0f) <<< 2) ||| (group.data_c_lsb >>> 6) }
      if tmc.enhanced_mode = false then
        ({ s with handle := { s.handle with tmc := tmc } }, V4L2_RDS_TMC_SYS)
      else
        ({ s with handle := { s.handle with tmc := { tmc with
            t_a := (group.data_c_lsb &&& 0x30) >>> 4
            t_w := (group.data_c_lsb &&& 0x0c) >>> 2
            t_d := group.data_c_lsb &&& 0x03 } } }, V4L2_RDS_TMC_SYS)
    else
      (s, V4L2_RDS_TMC_SYS)

/-- `rds_decode_tmc_single_group`: decode a single-group TMC message.  The C
local `struct v4l2_rds_tmc_msg msg` is uninitialized; the members the source
never assigns (`length`, `additional`) are modelled as their zero values. -/
def rds_decode_tmc_single_group (s : RdsPrivateState) : RdsPrivateState × Nat :=
  let grp := s.rds_group
  let msg : RdsTmcMsg := { zeroRdsTmcMsg with
    dp := grp.data_b_lsb &&& 0x07
    follow_diversion := (grp.data_c_msb &&& 0x80) != 0
    neg_direction := (grp.data_c_msb &&& 0x40) != 0
    extent := (grp.data_c_msb &&& 0x38) >>> 3
    event := ((grp.data_c_msb &&& 0x07) <<< 8) ||| grp.data_c_lsb
    location := (grp.data_d_msb <<< 8) ||| grp.data_c_lsb }
  ({ s with handle := { s.handle with
      tmc := { s.handle.tmc with tmc_msg := msg }
      valid_fields := (s.handle.valid_fields ||| V4L2_RDS_TMC_SG) &&&
        (0xfffff ^^^ V4L2_RDS_TMC_MG) } }, V4L2_RDS_TMC_SG)

/-- The packing of one optional TMC block in `rds_decode_tmc_multi_group`:
`data_c_msb << 28 | data_c_lsb << 20 | data_d_msb << 12 | data_d_lsb << 4`,
stored through a `uint64_t` into a `uint32_t` slot, hence reduced mod 2^32. -/
def rds_tmc_buffer (grp : RdsGroup) : Nat :=
  ((grp.data_c_msb <<< 28) ||| (grp.data_c_lsb <<< 20) |||
    (grp.data_d_msb <<< 12) ||| (grp.data_d_lsb <<< 4)) % 4294967296

/-- `rds_decode_tmc_multi_group`: reassemble a multi-group TMC message.  The
source's `memset(msg, 0, sizeof(msg))` clears the staging message (its extent
depends on struct layout in the header outside `src/`; per the spec, section
4.8.2, the first group clears the staging message, modelled as a full clear).
The function returns `V4L2_RDS_TMC_MG` on every path, as in the source. -/
def rds_decode_tmc_multi_group (s : RdsPrivateState) : RdsPrivateState × Nat :=
  let grp := s.rds_group
  let grp_seq_id := (grp.data_c_msb &&& 0x30) >>> 4
  let (s, message_completed) :=
    if (grp.data_c_msb &&& 0x80) ≠ 0 then
      let msg := { zeroRdsTmcMsg with
        follow_diversion := (grp.data_c_msb &&& 0x80) != 0
        neg_direction := (grp.data_c_msb &&& 0x40) != 0
        extent := (grp.data_c_msb &&& 0x38) >>> 3
        event := ((grp.data_c_msb &&& 0x07) <<< 8) ||| grp.data_c_lsb
        location := (grp.data_d_msb <<< 8) ||| grp.data_c_lsb }
      ({ s with
          continuity_id := grp.data_b_lsb &&& 0x07
          new_tmc_msg := msg }, false)
    else if (grp.data_c_msb &&& 0x40) ≠ 0 ∧ (grp.data_b_lsb &&& 0x07) = s.continuity_id then
      ({ s with
          grp_seq_id := grp_seq_id
          optional_tmc := s.optional_tmc.set 0 (rds_tmc_buffer grp)
          new_tmc_msg := { s.new_tmc_msg with length := 1 } }, grp_seq_id = 0)
    else if (grp.data_b_lsb &&& 0x07) = s.continuity_id ∧
        (grp_seq_id : Int) = (s.grp_seq_id : Int) - 1 then
      ({ s with
          grp_seq_id := grp_seq_id
          optional_tmc := s.optional_tmc.set s.new_tmc_msg.length (rds_tmc_buffer grp)
          new_tmc_msg := { s.new_tmc_msg with length := s.new_tmc_msg.length + 1 } },
        grp_seq_id = 0)
    else
      (s, false)
  if message_completed then
    let s := { s with handle := { s.handle with
      tmc := { s.handle.tmc with tmc_msg := s.new_tmc_msg } } }
    let s := rds_tmc_decode_additional s
    ({ s with handle := { s.handle with
        valid_fields := (s.handle.valid_fields ||| V4L2_RDS_TMC_MG) &&&
          (0xfffff ^^^ V4L2_RDS_TMC_SG) } }, V4L2_RDS_TMC_MG)
  else
    (s, V4L2_RDS_TMC_MG)

/-- `rds_add_oda`: the C loop's unbraced `return false;` sits inside the loop
body, so whenever the set is non-empty the first iteration may update the aid
of entry 0 and then always returns false; a new entry is only ever appended to
an empty set. -/
def rds_add_oda (s : RdsPrivateState) (oda : RdsOda) : Bool × RdsPrivateState :=
  match s.handle.rds_oda with
  | e0 :: rest =>
    if e0.group_id = oda.group_id then
      (false, { s with handle := { s.handle with
          rds_oda := { e0 with aid := oda.aid } :: rest } })
    else
      (false, s)
  | [] =>
    if s.handle.rds_oda.length ≥ MAX_ODA_CNT then (false, s)
    else (true, { s with handle := { s.handle with
        rds_oda := s.handle.rds_oda ++ [oda] } })

/-- `rds_add_af_to_list`: compute the frequency for the code `af` and append
it when there is room and it is new.  The source's LF/MF branch tests the
just-zero-initialized `freq` variable (`else if (freq <= 15)`), kept
verbatim via `freq0`. -/
def rds_add_af_to_list (af_set : RdsAfSet) (af : Nat) (is_vhf : Bool) : Bool × RdsAfSet :=
  let freq0 : Nat := 0
  if af = 0 then (false, af_set)
  else
    let freq :=
      if is_vhf then 87500000 + af * 100000
      else if freq0 ≤ 15 then 152000 + af * 9000
      else 531000 + af * 9000
    if af_set.af.length ≥ MAX_AF_CNT ∨ af_set.af.length ≥ af_set.announced_af then
      (false, af_set)
    else if freq ∈ af_set.af then
      (false, af_set)
    else
      (true, { af_set with af := af_set.af ++ [freq] })

/-- `rds_add_af`: interpret block C of a 0A group per IEC 62106 6.2.1.6 and
update the AF set; returns whether any AF was added, alongside the state. -/
def rds_add_af (s : RdsPrivateState) : Bool × RdsPrivateState :=
  let c_msb := s.rds_group.data_c_msb
  let st1 : Bool × RdsAfSet × Nat :=
    if c_msb = 250 then
      let ar := rds_add_af_to_list s.handle.rds_af s.rds_group.data_c_lsb false
      (false || ar.1, ar.2, 0)
    else
      (false, s.handle.rds_af, s.rds_group.data_c_lsb)
  let c_lsb := st1.2.2
  let af_set1 :=
    if 224 ≤ c_msb ∧ c_msb ≤ 249 then { st1.2.1 with announced_af := c_msb - 224 }
    else st1.2.1
  let st2 : Bool × RdsAfSet :=
    if c_msb < 205 then
      let ar := rds_add_af_to_list af_set1 c_msb true
      (st1.1 || ar.1, ar.2)
    else
      (st1.1, af_set1)
  let st3 : Bool × RdsAfSet :=
    if c_lsb < 205 then
      let ar := rds_add_af_to_list st2.2 c_lsb true
      (st2.1 || ar.1, ar.2)
    else
      st2
  let af_set := st3.2
  let handle :=
    if af_set.af.length ≥ af_set.announced_af ∧ af_set.announced_af ≠ 0 then
      { s.handle with
          rds_af := af_set
          valid_fields := s.handle.valid_fields ||| V4L2_RDS_AF }
    else
      { s.handle with rds_af := af_set }
  (st3.1, { s with handle := handle })

/-- `rds_add_ps`: store one character of the pending PS name; a position
validates when the same character arrives twice, any mismatch clears the
whole validity array.  Returns whether all 8 positions are validated. -/
def rds_add_ps (s : RdsPrivateState) (pos : Nat) (ps_char : Nat) : Bool × RdsPrivateState :=
  let s :=
    if ps_char = s.new_ps.getD pos 0 then
      { s with new_ps_valid := s.new_ps_valid.set pos 1 }
    else
      { s with
          new_ps := s.new_ps.set pos ps_char
          new_ps_valid := List.replicate 8 0 }
  (s.new_ps_valid.all (fun v => v == 1), s)

/-- The TA / MS flag section of `rds_decode_group0` (bits 4 and 3 of block
B's low bits, accepted on arrival). -/
def rds_decode_group0_flags (s : RdsPrivateState) : RdsPrivateState × Nat :=
  let grp := s.rds_group
  let updated : Nat := 0
  let tmp : Bool := (grp.data_b_lsb &&& 0x10) != 0
  let (s, updated) :=
    if s.handle.ta ≠ tmp then
      ({ s with handle := { s.handle with ta := tmp } }, updated ||| V4L2_RDS_TA)
    else (s, updated)
  let s := { s with handle := { s.handle with
    valid_fields := s.handle.valid_fields ||| V4L2_RDS_TA } }
  let tmp : Bool := (grp.data_b_lsb &&& 0x08) != 0
  let (s, updated) :=
    if s.handle.ms ≠ tmp then
      ({ s with handle := { s.handle with ms := tmp } }, updated ||| V4L2_RDS_MS)
    else (s, updated)
  let s := { s with handle := { s.handle with
    valid_fields := s.handle.valid_fields ||| V4L2_RDS_MS } }
  (s, updated)

/-- The program-service-name section of `rds_decode_group0`: two characters
of block D at positions 2·segment and 2·segment+1 of the pending PS. -/
def rds_decode_group0_ps (st : RdsPrivateState × Nat) : RdsPrivateState × Nat :=
  let s := st.1
  let updated := st.2
  let grp := s.rds_group
  let segment := grp.data_b_lsb &&& 0x03
  let s := (rds_add_ps s (segment * 2) grp.data_d_msb).2
  let psr := rds_add_ps s (segment * 2 + 1) grp.data_d_lsb
  let new_ps := psr.1
  let s := psr.2
  if new_ps then
    let (s, updated) :=
      if s.new_ps ≠ s.handle.ps then
        ({ s with handle := { s.handle with ps := s.new_ps } }, updated ||| V4L2_RDS_PS)
      else (s, updated)
    ({ s with handle := { s.handle with
        valid_fields := s.handle.valid_fields ||| V4L2_RDS_PS } }, updated)
  else (s, updated)

/-- The decoder-identification section of `rds_decode_group0`: bit 2 of block
B's low bits carries one DI flag selected by the segment; segments must
arrive in order, a wrong order restarts the accumulator. -/
def rds_decode_group0_di (st : RdsPrivateState × Nat) : RdsPrivateState × Nat :=
  let s := st.1
  let updated := st.2
  let grp := s.rds_group
  let segment := grp.data_b_lsb &&& 0x03
  let bit2 : Bool := (grp.data_b_lsb &&& 0x04) != 0
  if segment = 0 ∨ segment = s.next_di_segment then
    if segment = 0 then
      ({ s with
          new_di := set_bit s.new_di V4L2_RDS_FLAG_STEREO bit2
          next_di_segment := 1 }, updated)
    else if segment = 1 then
      ({ s with
          new_di := set_bit s.new_di V4L2_RDS_FLAG_ARTIFICIAL_HEAD bit2
          next_di_segment := 2 }, updated)
    else if segment = 2 then
      ({ s with
          new_di := set_bit s.new_di V4L2_RDS_FLAG_COMPRESSED bit2
          next_di_segment := 3 }, updated)
    else if segment = 3 then
      let s := { s with new_di := set_bit s.new_di V4L2_RDS_FLAG_STATIC_PTY bit2 }
      let (s, updated) :=
        if s.handle.di ≠ s.new_di then
          ({ s with handle := { s.handle with di := s.new_di } }, updated ||| V4L2_RDS_DI)
        else (s, updated)
      ({ s with
          next_di_segment := 0
          handle := { s.handle with
            valid_fields := s.handle.valid_fields ||| V4L2_RDS_DI } }, updated)
    else (s, updated)
  else
    ({ s with next_di_segment := 0, new_di := 0 }, updated)

/-- The alternative-frequency section of `rds_decode_group0`: version A
groups carry AFs in block C. -/
def rds_decode_group0_af (st : RdsPrivateState × Nat) : RdsPrivateState × Nat :=
  let s := st.1
  let updated := st.2
  if s.rds_group.group_version = 65 then
    let afr := rds_add_af s
    if afr.1 then (afr.2, updated ||| V4L2_RDS_AF) else (afr.2, updated)
  else
    (s, updated)

/-- `rds_decode_group0`: basic tuning and switching (TA, MS, PS, DI, AF),
as the sequence of the four sections above. -/
def rds_decode_group0 (s : RdsPrivateState) : RdsPrivateState × Nat :=
  rds_decode_group0_af (rds_decode_group0_di (rds_decode_group0_ps
    (rds_decode_group0_flags s)))

/-- `rds_decode_group1`: slow labelling codes, version A only.  ECC
(variant 0) and language code (variant 3) go through the pending
`new_ecc` / `new_lc` buffers. -/
def rds_decode_group1 (s : RdsPrivateState) : RdsPrivateState × Nat :=
  let grp := s.rds_group
  if grp.group_version ≠ 65 then (s, 0)
  else
    let variant_code := (grp.data_c_msb >>> 4) &&& 0x07
    if variant_code = 0 then
      if grp.data_c_lsb = s.new_ecc then
        let updated : Nat := if s.handle.ecc ≠ grp.data_c_lsb then V4L2_RDS_ECC else 0
        ({ s with handle := { s.handle with
            valid_fields := s.handle.valid_fields ||| V4L2_RDS_ECC
            ecc := grp.data_c_lsb } }, updated)
      else
        ({ s with new_ecc := grp.data_c_lsb }, 0)
    else if variant_code = 0x03 then
      if grp.data_c_lsb = s.new_lc then
        ({ s with handle := { s.handle with
            valid_fields := s.handle.valid_fields ||| V4L2_RDS_LC
            lc := grp.data_c_lsb } }, V4L2_RDS_LC)
      else
        ({ s with new_lc := grp.data_c_lsb }, 0)
    else
      (s, 0)

/-- One iteration (index `i`) of the carriage-return scan at the end of
`rds_decode_group2`: a 0x0d in the pending radio text is replaced by a
terminator and the buffer is published with `rt_length = i`. -/
def rds_rt_cr_step (st : RdsPrivateState × Nat) (i : Nat) : RdsPrivateState × Nat :=
  let s := st.1
  let updated := st.2
  if s.new_rt.getD i 0 = 0x0d then
    let s := { s with
      new_rt := s.new_rt.set i 0
      handle := { s.handle with
        rt_length := i
        valid_fields := s.handle.valid_fields ||| V4L2_RDS_RT } }
    let (s, updated) :=
      if s.handle.rt.take s.handle.rt_length ≠ s.new_rt.take s.handle.rt_length then
        ({ s with handle := { s.handle with
            rt := s.new_rt.take s.handle.rt_length ++ s.handle.rt.drop s.handle.rt_length } },
          updated ||| V4L2_RDS_RT)
      else (s, updated)
    ({ s with next_rt_segment := 0 }, updated)
  else
    (s, updated)

/-- The `for (i = 0; i < 64; i++)` carriage-return scan of
`rds_decode_group2`, one recursive step per iteration. -/
def rds_rt_cr_scan : Nat → Nat → (RdsPrivateState × Nat) → RdsPrivateState × Nat
  | 0, _, st => st
  | fuel + 1, i, st => rds_rt_cr_scan fuel (i + 1) (rds_rt_cr_step st i)

/-- `rds_decode_group2`: radio text.  Version A stores four characters per
segment (blocks C and D), version B two (block D); an A/B-flag change resets
the buffer; the trailing scan handles early termination by 0x0d. -/
def rds_decode_group2 (s : RdsPrivateState) : RdsPrivateState × Nat :=
  let grp := s.rds_group
  let updated : Nat := 0
  let segment := grp.data_b_lsb &&& 0x0f
  let rt_ab_flag_n : Bool := (grp.data_b_lsb &&& 0x10) != 0
  let (s, updated) :=
    if rt_ab_flag_n ≠ s.handle.rt_ab_flag then
      ({ s with
          next_rt_segment := 0
          handle := { s.handle with
            rt_ab_flag := rt_ab_flag_n
            rt := List.replicate 64 0
            valid_fields := s.handle.valid_fields &&& (0xfffff ^^^ V4L2_RDS_RT) } },
        updated ||| V4L2_RDS_RT)
    else (s, updated)
  let (s, updated) :=
    if grp.group_version = 65 then
      if segment = 0 ∨ segment = s.next_rt_segment then
        let s := { s with new_rt :=
          ((((s.new_rt.set (segment * 4) grp.data_c_msb).set
            (segment * 4 + 1) grp.data_c_lsb).set
            (segment * 4 + 2) grp.data_d_msb).set
            (segment * 4 + 3) grp.data_d_lsb) }
        let s := { s with next_rt_segment := segment + 1 }
        if segment = 0x0f then
          let s := { s with handle := { s.handle with
            rt_length := 64
            valid_fields := s.handle.valid_fields ||| V4L2_RDS_RT } }
          let (s, updated) :=
            if s.handle.rt ≠ s.new_rt then
              ({ s with handle := { s.handle with rt := s.new_rt } },
                updated ||| V4L2_RDS_RT)
            else (s, updated)
          ({ s with next_rt_segment := 0 }, updated)
        else (s, updated)
      else (s, updated)
    else
      if segment = 0 ∨ segment = s.next_rt_segment then
        let s := { s with new_rt :=
          ((s.new_rt.set (segment * 2) grp.data_d_msb).set
            (segment * 2 + 1) grp.data_d_lsb) }
        let s := { s with next_rt_segment := segment + 1 }
        if segment = 0x0f then
          let s := { s with handle := { s.handle with
            rt_length := 32
            valid_fields := s.handle.valid_fields ||| V4L2_RDS_RT } }
          let updated := updated ||| V4L2_RDS_RT
          let (s, updated) :=
            if s.handle.rt.take 32 ≠ s.new_rt.take 32 then
              ({ s with handle := { s.handle with
                  rt := s.new_rt.take 32 ++ s.handle.rt.drop 32 } },
                updated ||| V4L2_RDS_RT)
            else (s, updated)
          ({ s with next_rt_segment := 0 }, updated)
        else (s, updated)
      else (s, updated)
  rds_rt_cr_scan 64 0 (s, updated)

/-- `rds_decode_group3`: open-data announcements, version A only.  The return
value of the TMC-system decoding triggered by AIDs 0xcd46 / 0xcd47 is
discarded, as in the source. -/
def rds_decode_group3 (s : RdsPrivateState) : RdsPrivateState × Nat :=
  let grp := s.rds_group
  if grp.group_version ≠ 65 then (s, 0)
  else
    let new_oda : RdsOda := {
      group_version := if grp.data_b_lsb &&& 0x01 ≠ 0 then 66 else 65
      group_id := (grp.data_b_lsb &&& 0x1e) >>> 1
      aid := (grp.data_d_msb <<< 8) ||| grp.data_d_lsb }
    let odar := rds_add_oda s new_oda
    let s := odar.2
    let (s, updated) :=
      if odar.1 then
        ({ s with handle := { s.handle with
            decode_information := s.handle.decode_information ||| V4L2_RDS_ODA } },
          V4L2_RDS_ODA)
      else (s, 0)
    if new_oda.aid = 0xcd46 ∨ new_oda.aid = 0xcd47 then
      ((rds_decode_tmc_system s).1, updated)
    else
      (s, updated)

/-- Truncation of a rational toward zero, the effect of C's `(int)` cast on a
double (the source's double-precision rounding is modelled by exact rational
arithmetic; no claim depends on the affected calendar fields). -/
def c_int_of_rat (q : ℚ) : Int :=
  if q < 0 then ⌈q⌉ else ⌊q⌋

/-- Conversion of an integer to C `uint32_t` (reduction mod 2^32). -/
def to_uint32 (z : Int) : Nat :=
  (z % 4294967296).toNat

/-- `rds_decode_mjd`: build the broken-down local time handed to `mktime`.
`local_hour` and `local_minute` are uint8, so the offset adjustment wraps mod
256 (the offset terms are at most 62, below 256).  In the day formula the
subtraction happens in uint32 (`local_mjd` is uint32), and in the negative
branch of `tm_gmtoff` the C expression `-2 * offset * 3600` is evaluated in
uint32 before widening to `long`. -/
def rds_decode_mjd (s : RdsPrivateState) : CTm :=
  let offset := s.utc_offset &&& 0x1f
  let local_mjd := s.new_mjd
  let (local_hour, local_minute) :=
    if s.utc_offset &&& 0x20 ≠ 0 then
      (((s.utc_hour + 256) - offset * 2) % 256,
        ((s.utc_minute + 256) - (offset % 2) * 30) % 256)
    else
      ((s.utc_hour + offset * 2) % 256,
        (s.utc_minute + (offset % 2) * 30) % 256)
  let y := c_int_of_rat (((local_mjd : ℚ) - 15078.2) / 365.25)
  let iy := c_int_of_rat ((y : ℚ) * 365.25)
  let m := c_int_of_rat (((local_mjd : ℚ) - 14956.1 - (iy : ℚ)) / 30.6001)
  let im := c_int_of_rat ((m : ℚ) * 30.6001)
  let d : Int := to_uint32 ((local_mjd : Int) - 14956 - iy - im)
  let k : Int := if m = 14 ∨ m = 15 then 1 else 0
  let y := y + k
  let m := m - 1 - k * 12
  let gmtoff : Int :=
    if s.utc_offset &&& 0x20 ≠ 0 then
      ((to_uint32 (-2) * offset) % 4294967296 * 3600) % 4294967296
    else
      2 * offset * 3600
  { tm_sec := 0
    tm_min := local_minute
    tm_hour := local_hour
    tm_mday := d
    tm_mon := m
    tm_year := y
    tm_gmtoff := gmtoff }

/-- `rds_decode_group4`: date and time, version A only; the time fields are
only decoded once the same MJD arrives twice (the source's trailing `printf`
is debug output with no state effect). -/
def rds_decode_group4 (s : RdsPrivateState) : RdsPrivateState × Nat :=
  let grp := s.rds_group
  if grp.group_version ≠ 65 then (s, 0)
  else
    let mjd := ((grp.data_b_lsb &&& 0x03) <<< 15) |||
      (grp.data_c_msb <<< 7) ||| (grp.data_c_lsb >>> 1)
    if s.new_mjd ≠ mjd then
      ({ s with new_mjd := mjd }, 0)
    else
      let s := { s with
        utc_hour := ((grp.data_c_lsb &&& 0x01) <<< 4) ||| (grp.data_d_msb >>> 4)
        utc_minute := ((grp.data_d_msb &&& 0x0f) <<< 2) ||| (grp.data_d_lsb >>> 6)
        utc_offset := grp.data_d_lsb &&& 0x3f }
      ({ s with handle := { s.handle with
          time := rds_decode_mjd s
          valid_fields := s.handle.valid_fields ||| V4L2_RDS_TIME } }, V4L2_RDS_TIME)

/-- `rds_decode_group8`: TMC, version A only; a group decodes only when
bit-identical to the previously stored one, which is then invalidated
(`group_version = 0`); dispatch on the single-group / tuning-info bits. -/
def rds_decode_group8 (s : RdsPrivateState) : RdsPrivateState × Nat :=
  let grp := s.rds_group
  if grp.group_version ≠ 65 then (s, 0x00)
  else if rds_compare_group s.prev_tmc_group s.rds_group = false then
    ({ s with prev_tmc_group := s.rds_group }, 0x00)
  else
    let s := { s with prev_tmc_group := { s.prev_tmc_group with group_version := 0x00 } }
    if (grp.data_b_lsb &&& V4L2_TMC_SINGLE_GROUP) ≠ 0 ∧
        (grp.data_b_lsb &&& V4L2_TMC_TUNING_INFO) = 0 then
      rds_decode_tmc_single_group s
    else if (grp.data_b_lsb &&& V4L2_TMC_SINGLE_GROUP) = 0 ∧
        (grp.data_b_lsb &&& V4L2_TMC_TUNING_INFO) = 0 then
      rds_decode_tmc_multi_group s
    else
      let tuning_variant := grp.data_b_lsb &&& 0x0f
      if (grp.data_b_lsb &&& V4L2_TMC_TUNING_INFO) ≠ 0 ∧ 4 ≤ tuning_variant ∧
          tuning_variant ≤ 9 then
        (s, 0x00)
      else
        (s, 0x00)

/-- `rds_decode_group10`: program type name, version A only; each half
validates on double reception, both halves publish together. -/
def rds_decode_group10 (s : RdsPrivateState) : RdsPrivateState × Nat :=
  let grp := s.rds_group
  let updated : Nat := 0
  let segment_code := grp.data_b_lsb &&& 0x01
  let ptyn_ab_flag_n : Bool := (grp.data_b_lsb &&& 0x10) != 0
  if grp.group_version ≠ 65 then (s, 0)
  else
    let (s, updated) :=
      if ptyn_ab_flag_n ≠ s.handle.ptyn_ab_flag then
        ({ s with
            new_ptyn := [List.replicate 4 0, List.replicate 4 0]
            new_ptyn_valid := [false, false]
            handle := { s.handle with
              ptyn_ab_flag := ptyn_ab_flag_n
              ptyn := List.replicate 8 0
              valid_fields := s.handle.valid_fields &&& (0xfffff ^^^ V4L2_RDS_PTYN) } },
          updated ||| V4L2_RDS_PTYN)
      else (s, updated)
    let ptyn_tmp := [grp.data_c_msb, grp.data_c_lsb, grp.data_d_msb, grp.data_d_lsb]
    let s :=
      if ptyn_tmp = s.new_ptyn.getD segment_code [] then
        { s with new_ptyn_valid := s.new_ptyn_valid.set segment_code true }
      else
        { s with
            new_ptyn := s.new_ptyn.set segment_code ptyn_tmp
            new_ptyn_valid := s.new_ptyn_valid.set segment_code false }
    if s.new_ptyn_valid.getD 0 false ∧ s.new_ptyn_valid.getD 1 false then
      ({ s with handle := { s.handle with
          ptyn := s.new_ptyn.getD 0 [] ++ s.new_ptyn.getD 1 []
          valid_fields := s.handle.valid_fields ||| V4L2_RDS_PTYN } },
        updated ||| V4L2_RDS_PTYN)
    else
      (s, updated)

/-- `rds_decode_group`: count the group type and dispatch to the group-type
specific decoder (ids 0, 1, 2, 3, 4, 8, 10; others only counted). -/
def rds_decode_group (s : RdsPrivateState) : RdsPrivateState × Nat :=
  let group_id := s.rds_group.group_id
  let stats := s.handle.rds_statistics
  let s := { s with handle := { s.handle with rds_statistics := { stats with
      group_type_cnt := stats.group_type_cnt.set group_id
        (stats.group_type_cnt.getD group_id 0 + 1) } } }
  if group_id = 0 then rds_decode_group0 s
  else if group_id = 1 then rds_decode_group1 s
  else if group_id = 2 then rds_decode_group2 s
  else if group_id = 3 then rds_decode_group3 s
  else if group_id = 4 then rds_decode_group4 s
  else if group_id = 8 then rds_decode_group8 s
  else if group_id = 10 then rds_decode_group10 s
  else (s, 0)

/-- `v4l2_rds_create`: a zero-initialized decoder with the requested
RDS/RBDS variant. -/
def v4l2_rds_create (is_rbds : Bool) : RdsPrivateState :=
  { zeroPrivateState with handle := { zeroV4l2Rds with is_rbds := is_rbds } }

/-- `v4l2_rds_reset`: zero the whole private state, keeping the variant flag
and, unless requested, the statistics. -/
def v4l2_rds_reset (s : RdsPrivateState) (reset_statistics : Bool) : RdsPrivateState :=
  let t := { zeroPrivateState with handle := { zeroV4l2Rds with is_rbds := s.handle.is_rbds } }
  if reset_statistics = false then
    { t with handle := { t.handle with rds_statistics := s.handle.rds_statistics } }
  else
    t

/-- The two data bytes of an ingested block have C type uint8; the model
reduces them mod 256 on entry. -/
def rds_norm_block (d : RdsData) : RdsData :=
  { d with lsb := d.lsb % 256, msb := d.msb % 256 }

/-- The effective block id of `v4l2_rds_add`: `rds_data->block &
V4L2_RDS_BLOCK_MSK`, forced to -1 when the uncorrectable-error flag is set. -/
def rds_block_id (b : RdsData) : Int :=
  if b.uncorrectable then -1 else ((b.blockId &&& 0x07 : Nat) : Int)

def rds_bump_group_error (s : RdsPrivateState) : RdsPrivateState :=
  { s with handle := { s.handle with rds_statistics := { s.handle.rds_statistics with
      group_error_cnt := s.handle.rds_statistics.group_error_cnt + 1 } } }

/-- The completing branch of `v4l2_rds_add` (state `RDS_C_RECEIVED`, block id
3): clear the group buffer, decode the four stored raw blocks, then run the
group-type dependent decoder, collecting the updated-fields mask. -/
def rds_complete_group (s : RdsPrivateState) : RdsPrivateState × Nat :=
  let s := { s with rds_group := zeroRdsGroup }
  let (s, updated) := rds_decode_a s (s.rds_data_raw.getD 0 zeroRdsData)
  let (s, u2) := rds_decode_b s (s.rds_data_raw.getD 1 zeroRdsData)
  let s := rds_decode_c s (s.rds_data_raw.getD 2 zeroRdsData)
  let s := rds_decode_d s (s.rds_data_raw.getD 3 zeroRdsData)
  let (s, u3) := rds_decode_group s
  (s, updated ||| u2 ||| u3)

/-- `v4l2_rds_add`: the four-state block assembler.  An uncorrectable block
gets block id -1; the source's `memset` of the raw-block buffer uses
`sizeof` of a pointer, but every buffer entry is overwritten before it is
read, so the model clears the whole buffer. -/
def v4l2_rds_add (s : RdsPrivateState) (rds_data : RdsData) : RdsPrivateState × Nat :=
  let rds_data := rds_norm_block rds_data
  let block_id : Int := rds_block_id rds_data
  let stats := s.handle.rds_statistics
  let stats := { stats with block_cnt := stats.block_cnt + 1 }
  let stats :=
    if rds_data.uncorrectable then
      { stats with block_error_cnt := stats.block_error_cnt + 1 }
    else if rds_data.corrected then
      { stats with block_corrected_cnt := stats.block_corrected_cnt + 1 }
    else
      stats
  let s := { s with handle := { s.handle with rds_statistics := stats } }
  match s.decode_state with
  | .rds_empty =>
    if block_id = 0 then
      ({ s with
          decode_state := .rds_a_received
          rds_data_raw := (List.replicate 4 zeroRdsData).set 0 rds_data }, 0)
    else
      (rds_bump_group_error s, 0)
  | .rds_a_received =>
    if block_id = 1 then
      ({ s with
          decode_state := .rds_b_received
          rds_data_raw := s.rds_data_raw.set 1 rds_data }, 0)
    else
      ({ rds_bump_group_error s with decode_state := .rds_empty }, 0)
  | .rds_b_received =>
    if block_id = 2 ∨ block_id = 4 then
      ({ s with
          decode_state := .rds_c_received
          rds_data_raw := s.rds_data_raw.set 2 rds_data }, 0)
    else
      ({ rds_bump_group_error s with decode_state := .rds_empty }, 0)
  | .rds_c_received =>
    if block_id = 3 then
      let s := { s with
        decode_state := .rds_empty
        rds_data_raw := s.rds_data_raw.set 3 rds_data }
      let s := { s with handle := { s.handle with rds_statistics :=
        { s.handle.rds_statistics with group_cnt := s.handle.rds_statistics.group_cnt + 1 } } }
      rds_complete_group s
    else
      ({ rds_bump_group_error s with decode_state := .rds_empty }, 0)

/-- The RDS program-type table of `v4l2_rds_get_pty_str`. -/
def rds_pty_lut : List String :=
  ["None", "News", "Affairs", "Info", "Sport", "Education", "Drama",
   "Culture", "Science", "Varied Speech", "Pop Music",
   "Rock Music", "Easy Listening", "Light Classics M",
   "Serious Classics", "Other Music", "Weather", "Finance",
   "Children", "Social Affairs", "Religion", "Phone In",
   "Travel & Touring", "Leisure & Hobby", "Jazz Music",
   "Country Music", "National Music", "Oldies Music", "Folk Music",
   "Documentary", "Alarm Test", "Alarm!"]

/-- The RBDS program-type table of `v4l2_rds_get_pty_str`. -/
def rbds_pty_lut : List String :=
  ["None", "News", "Information", "Sports", "Talk", "Rock",
   "Classic Rock", "Adult Hits", "Soft Rock", "Top 40", "Country",
   "Oldies", "Soft", "Nostalgia", "Jazz", "Classical",
   "R&B", "Soft R&B", "Foreign Language", "Religious Music",
   "Religious Talk", "Personality", "Public", "College",
   "Spanish Talk", "Spanish Music", "Hip-Hop", "Unassigned",
   "Unassigned", "Weather", "Emergency Test", "Emergency"]

/-- `v4l2_rds_get_pty_str`: the program-type string, or `none` (the C NULL)
when the stored PTY is out of range. -/
def v4l2_rds_get_pty_str (handle : V4l2Rds) : Option String :=
  if handle.pty ≥ 32 then none
  else if handle.is_rbds then some (rbds_pty_lut.getD handle.pty "")
  else some (rds_pty_lut.getD handle.pty "")

/-- Feed a list of raw blocks through `v4l2_rds_add`, keeping the state. -/
def rdsRun (s : RdsPrivateState) (bs : List RdsData) : RdsPrivateState :=
  bs.foldl (fun s b => (v4l2_rds_add s b).1) s

/- Concrete input traces used to settle individual claims. -/

/-- One complete 1A group, variant 3 (language code) with code 0: blocks
A = (0x12, 0x34), B = (0x10, 0x00), C = (0x30, 0x00), D = (0x00, 0x00). -/
def c1_blocks : List RdsData :=
  [⟨0x34, 0x12, 0, false, false⟩, ⟨0x00, 0x10, 1, false, false⟩,
   ⟨0x00, 0x30, 2, false, false⟩, ⟨0x00, 0x00, 3, false, false⟩]

/-- A multi-group TMC staging state with one 28-bit optional slot holding
label 0 followed by data value 5 (bits 31..25 of the slot word are 0000101),
as left by a completed two-group message of length 1. -/
def c3_state : RdsPrivateState :=
  { zeroPrivateState with
      optional_tmc := [5 <<< 25, 0, 0, 0]
      handle := { zeroV4l2Rds with tmc := { zeroRdsTmc with
        tmc_msg := { zeroRdsTmcMsg with length := 1 } } } }

/-- One 4A group with MJD 45000, UTC time 00:00 and offset code 2 (positive,
two half-hours): blocks B = (0x40, 0x01), C = (0x5f, 0x90), D = (0x00, 0x02). -/
def c4_group : List RdsData :=
  [⟨0x00, 0x00, 0, false, false⟩, ⟨0x01, 0x40, 1, false, false⟩,
   ⟨0x90, 0x5f, 2, false, false⟩, ⟨0x02, 0x00, 3, false, false⟩]

/-- Modelled from the spec (section 4.7): local time = UTC plus the signed
offset in half-hours, bit 5 of the offset code the sign, bits 0..4 the count;
returned as (hour, minute) of the total minutes. -/
def spec_local_time (hour minute offset_code : Nat) : Int × Int :=
  let off : Int := ((offset_code &&& 0x1f : Nat) : Int)
  let t : Int := hour * 60 + minute +
    (if offset_code &&& 0x20 ≠ 0 then -(off * 30) else off * 30)
  (t / 60, t % 60)

/-- Two 0A groups: the first announces one AF (C msb = 0xe1 = 225), the
second delivers LF/MF code 16 (C = (0xfa = 250, 0x10)). -/
def c5_blocks : List RdsData :=
  [⟨0x00, 0x00, 0, false, false⟩, ⟨0x00, 0x00, 1, false, false⟩,
   ⟨0x00, 0xe1, 2, false, false⟩, ⟨0x00, 0x00, 3, false, false⟩,
   ⟨0x00, 0x00, 0, false, false⟩, ⟨0x00, 0x00, 1, false, false⟩,
   ⟨0x10, 0xfa, 2, false, false⟩, ⟨0x00, 0x00, 3, false, false⟩]

/-- Two 3A groups announcing ODAs for two different group ids: id 5 with AID
0x1234, then id 6 with AID 0x5678 (B lsb = 0x0a and 0x0c). -/
def c6_blocks : List RdsData :=
  [⟨0x00, 0x00, 0, false, false⟩, ⟨0x0a, 0x30, 1, false, false⟩,
   ⟨0x00, 0x00, 2, false, false⟩, ⟨0x34, 0x12, 3, false, false⟩,
   ⟨0x00, 0x00, 0, false, false⟩, ⟨0x0c, 0x30, 1, false, false⟩,
   ⟨0x00, 0x00, 2, false, false⟩, ⟨0x78, 0x56, 3, false, false⟩]

/-- The claim's radio-text scenario with version A group-2 groups: segment 0
with D = ('H','i'), then segment 1 with D = (0x0d, 'X'); the blocks C carry
(0x41, 0x42) and (0x43, 0x44) as one concrete choice of their contents. -/
def c8_blocks_vA : List RdsData :=
  [⟨0x00, 0x00, 0, false, false⟩, ⟨0x00, 0x20, 1, false, false⟩,
   ⟨0x42, 0x41, 2, false, false⟩, ⟨0x69, 0x48, 3, false, false⟩,
   ⟨0x00, 0x00, 0, false, false⟩, ⟨0x01, 0x20, 1, false, false⟩,
   ⟨0x44, 0x43, 2, false, false⟩, ⟨0x58, 0x0d, 3, false, false⟩]

/-- The amended scenario: version B group-2 groups (two text characters per
segment, from block D), segment 0 with D = ('H','i'), segment 1 with
D = (0x0d, 'X'); parametrized by the contents of the two blocks C. -/
def c8_blocks_vB (c1m c1l c2m c2l : Nat) : List RdsData :=
  [⟨0x00, 0x00, 0, false, false⟩, ⟨0x00, 0x28, 1, false, false⟩,
   ⟨c1l, c1m, 2, false, false⟩, ⟨0x69, 0x48, 3, false, false⟩,
   ⟨0x00, 0x00, 0, false, false⟩, ⟨0x01, 0x28, 1, false, false⟩,
   ⟨c2l, c2m, 2, false, false⟩, ⟨0x58, 0x0d, 3, false, false⟩]

def Frames (s t : RdsPrivateState) : Prop :=
  t.decode_state = s.decode_state ∧
  t.handle.rds_statistics.group_cnt = s.handle.rds_statistics.group_cnt ∧
  t.handle.pty = s.handle.pty ∧
  t.new_pty = s.new_pty ∧
  t.handle.rds_af = s.handle.rds_af

def CtlFrames (s t : RdsPrivateState) : Prop :=
  t.decode_state = s.decode_state ∧
  t.handle.rds_statistics.group_cnt = s.handle.rds_statistics.group_cnt ∧
  t.handle.pty = s.handle.pty ∧
  t.new_pty = s.new_pty

/-- The decoder states reachable through the public operations. -/
inductive RdsReachable : RdsPrivateState → Prop where
  | create (is_rbds : Bool) : RdsReachable (v4l2_rds_create is_rbds)
  | add {s : RdsPrivateState} (b : RdsData) :
      RdsReachable s → RdsReachable (v4l2_rds_add s b).1
  | reset {s : RdsPrivateState} (reset_statistics : Bool) :
      RdsReachable s → RdsReachable (v4l2_rds_reset s reset_statistics)

def goodBlockA (b : RdsData) : Prop := rds_block_id b = 0
def goodBlockB (b : RdsData) : Prop := rds_block_id b = 1
def goodBlockC (b : RdsData) : Prop := rds_block_id b = 2 ∨ rds_block_id b = 4
def goodBlockD (b : RdsData) : Prop := rds_block_id b = 3

/-- The relation between the processed input prefix and the assembler state:
in each intermediate state the stored raw blocks are exactly the trailing
good blocks of the prefix. -/
def rdsAssemblerInv (p : List RdsData) (s : RdsPrivateState) : Prop :=
  (s.decode_state = .rds_a_received →
    ∃ q a, p = q ++ [a] ∧ goodBlockA a ∧
      s.rds_data_raw = [rds_norm_block a, zeroRdsData, zeroRdsData, zeroRdsData]) ∧
  (s.decode_state = .rds_b_received →
    ∃ q a bb, p = q ++ [a, bb] ∧ goodBlockA a ∧ goodBlockB bb ∧
      s.rds_data_raw = [rds_norm_block a, rds_norm_block bb, zeroRdsData, zeroRdsData]) ∧
  (s.decode_state = .rds_c_received →
    ∃ q a bb c, p = q ++ [a, bb, c] ∧ goodBlockA a ∧ goodBlockB bb ∧ goodBlockC c ∧
      s.rds_data_raw =
        [rds_norm_block a, rds_norm_block bb, rds_norm_block c, zeroRdsData])

/-- Blocks forming one complete good group (of unsupported type 5, so no
group-type decoder runs). -/
def c2_blocks : List RdsData :=
  [⟨0x00, 0x00, 0, false, false⟩, ⟨0x00, 0x50, 1, false, false⟩,
   ⟨0x00, 0x00, 2, false, false⟩, ⟨0x00, 0x00, 3, false, false⟩]

/-- A completed group that announces an AF count: group id 0, version A
(bit 3 of block B's msb clear), and a block-C msb in 224..249. -/
def isAfAnnouncement (bb c : RdsData) : Prop :=
  (rds_norm_block bb).msb >>> 4 = 0 ∧ (rds_norm_block bb).msb &&& 0x08 = 0 ∧
  224 ≤ (rds_norm_block c).msb ∧ (rds_norm_block c).msb ≤ 249

def c7bs : List RdsData :=
  [⟨0x00, 0x00, 0, false, false⟩, ⟨0x00, 0x00, 1, false, false⟩,
   ⟨0x64, 0xe3, 2, false, false⟩, ⟨0x00, 0x00, 3, false, false⟩,
   ⟨0x00, 0x00, 0, false, false⟩, ⟨0x00, 0x00, 1, false, false⟩,
   ⟨0x66, 0x65, 2, false, false⟩, ⟨0x00, 0x00, 3, false, false⟩,
   ⟨0x00, 0x00, 0, false, false⟩, ⟨0x00, 0x00, 1, false, false⟩,
   ⟨0x00, 0xe1, 2, false, false⟩, ⟨0x00, 0x00, 3, false, false⟩]

/-- The part of C7 the code maintains: the AF list has no duplicates and at
most MAX_AF entries. -/
def AfOk (l : List Nat) : Prop := l.Nodup ∧ l.length ≤ MAX_AF_CNT

/-- C1: the claim says a PI, PTY, ECC, LC, MJD or TMC value reaches the public
snapshot only after two immediately consecutive matching receptions of that
field.  On a fresh decoder a single 1A group carrying language code 0 — the
first and only reception of the LC field — already publishes LC, because the
zero-initialized pending buffer `new_lc` equals the received code: after the
four blocks of `c1_blocks` exactly one group was decoded (`group_cnt = 1`),
yet the LC valid bit is set and the add call reported an LC update. -/
theorem claim_C1 :
    (rdsRun (v4l2_rds_create false) c1_blocks).handle.valid_fields &&& V4L2_RDS_LC ≠ 0 ∧
    (rdsRun (v4l2_rds_create false) c1_blocks).handle.lc = 0 ∧
    (rdsRun (v4l2_rds_create false) c1_blocks).handle.rds_statistics.group_cnt = 1 ∧
    (v4l2_rds_add (rdsRun (v4l2_rds_create false) (c1_blocks.take 3))
      (c1_blocks.getD 3 zeroRdsData)).2 &&& V4L2_RDS_LC ≠ 0 := by
  decide

/-- C3: the claim says the published additional fields equal the spec's
bit-array extraction (4-bit label, then `additional_lut[label]` data bits,
label 15 skipped, reads spanning slot boundaries).  The source diverges: it
runs one loop iteration per slot rather than until the bits are exhausted,
never advances the bit position past a data field (executing
`data += len % data_len` instead), and on a slot-boundary overhang patches
`label` instead of `data`.  On a single slot carrying label 0 with data 5 the
source stores the single field (0, 8) while the spec extraction yields
(0, 5), (0, 0), (0, 0), (0, 0). -/
theorem claim_C3 :
    (rds_tmc_decode_additional c3_state).handle.tmc.tmc_msg.additional.fields =
      [⟨0, 8⟩] ∧
    spec_tmc_decode_additional c3_state.optional_tmc
      c3_state.handle.tmc.tmc_msg.length = [⟨0, 5⟩, ⟨0, 0⟩, ⟨0, 0⟩, ⟨0, 0⟩] ∧
    (rds_tmc_decode_additional c3_state).handle.tmc.tmc_msg.additional.fields ≠
      spec_tmc_decode_additional c3_state.optional_tmc
        c3_state.handle.tmc.tmc_msg.length := by
  decide

/-- C4: the claim says the published local time is UTC adjusted by the offset
read as half-hours.  The source instead adds `offset * 2` to the hour (two
hours per offset unit, where the spec conversion is offset / 2 hours plus 30
minutes for an odd offset).  After the same 4A group (UTC 00:00, offset code
2) is received twice, the decoder publishes 04:00 local time where the spec
conversion gives 01:00. -/
theorem claim_C4 :
    (rdsRun (v4l2_rds_create false) (c4_group ++ c4_group)).utc_hour = 0 ∧
    (rdsRun (v4l2_rds_create false) (c4_group ++ c4_group)).utc_minute = 0 ∧
    (rdsRun (v4l2_rds_create false) (c4_group ++ c4_group)).utc_offset = 2 ∧
    (rdsRun (v4l2_rds_create false) (c4_group ++ c4_group)).handle.valid_fields &&&
      V4L2_RDS_TIME ≠ 0 ∧
    (rdsRun (v4l2_rds_create false) (c4_group ++ c4_group)).handle.time.tm_hour = 4 ∧
    (rdsRun (v4l2_rds_create false) (c4_group ++ c4_group)).handle.time.tm_min = 0 ∧
    spec_local_time 0 0 2 = (1, 0) ∧
    ((rdsRun (v4l2_rds_create false) (c4_group ++ c4_group)).handle.time.tm_hour : Int) ≠
      (spec_local_time 0 0 2).1 := by
  decide

/-- C5: the claim says an accepted LF/MF code c is stored as 531000 + c·9000
Hz, or 152000 + c·9000 Hz when c ≤ 15.  The source's branch tests the freshly
zero-initialized `freq` variable instead of the code, so every LF/MF code
takes the 152000 branch: code 16 (> 15) is stored as 296000 = 152000 +
16·9000 Hz, and the claimed 675000 = 531000 + 16·9000 Hz is absent. -/
theorem claim_C5 :
    (rdsRun (v4l2_rds_create false) c5_blocks).handle.rds_af.af = [296000] ∧
    296000 = 152000 + 16 * 9000 ∧
    ¬ 531000 + 16 * 9000 ∈ (rdsRun (v4l2_rds_create false) c5_blocks).handle.rds_af.af := by
  decide

/-- C6: the claim says a 3A announcement for a new group id is appended while
the set holds fewer than MAX_ODA entries.  The unbraced `return false;`
inside the search loop of `rds_add_oda` makes every call on a non-empty set
return after examining entry 0 only, so the second announcement (group id 6,
set size 1 < MAX_ODA = 18) is dropped: the set still holds exactly the first
entry. -/
theorem claim_C6 :
    (rdsRun (v4l2_rds_create false) c6_blocks).handle.rds_oda = [⟨5, 65, 0x1234⟩] ∧
    1 < MAX_ODA_CNT ∧
    (rdsRun (v4l2_rds_create false) c6_blocks).handle.rds_oda.length ≠ 2 := by
  decide

/-- C8 counterexample: with version A group-2 groups (as the claim states), a
segment carries four characters — block C's two bytes land at offsets
4·segment and 4·segment+1 and block D's at 4·segment+2 and 4·segment+3 — so
after the two groups the 0x0d sits at offset 6, and the published text is the
six bytes (0x41, 0x42, 'H', 'i', 0x43, 0x44) with rt_length = 6, not "Hi"
with rt_length = 2. -/
theorem claim_C8_counterexample :
    (rdsRun (v4l2_rds_create false) c8_blocks_vA).handle.rt_length = 6 ∧
    (rdsRun (v4l2_rds_create false) c8_blocks_vA).handle.rt.take 6 =
      [0x41, 0x42, 0x48, 0x69, 0x43, 0x44] ∧
    (rdsRun (v4l2_rds_create false) c8_blocks_vA).handle.rt_length ≠ 2 ∧
    (rdsRun (v4l2_rds_create false) c8_blocks_vA).handle.rt.take 2 ≠ [0x48, 0x69] := by
  decide

/-- C8 (amended): with version B group-2 groups — whose radio-text characters
come from block D only — the two groups of the scenario leave the public
radio text equal to "Hi" (bytes 72, 105), rt_length = 2, and the RT-valid bit
set; verified for two different contents of the blocks C, which version B
ignores for the text. -/
theorem claim_C8 :
    ((rdsRun (v4l2_rds_create false) (c8_blocks_vB 0x41 0x42 0x43 0x44)).handle.rt_length = 2 ∧
     (rdsRun (v4l2_rds_create false) (c8_blocks_vB 0x41 0x42 0x43 0x44)).handle.rt.take 2 =
       [0x48, 0x69] ∧
     (rdsRun (v4l2_rds_create false) (c8_blocks_vB 0x41 0x42 0x43 0x44)).handle.valid_fields &&&
       V4L2_RDS_RT ≠ 0) ∧
    ((rdsRun (v4l2_rds_create false) (c8_blocks_vB 0xaa 0xbb 0xcc 0xdd)).handle.rt_length = 2 ∧
     (rdsRun (v4l2_rds_create false) (c8_blocks_vB 0xaa 0xbb 0xcc 0xdd)).handle.rt.take 2 =
       [0x48, 0x69] ∧
     (rdsRun (v4l2_rds_create false) (c8_blocks_vB 0xaa 0xbb 0xcc 0xdd)).handle.valid_fields &&&
       V4L2_RDS_RT ≠ 0) := by
  decide

theorem frames_refl (s : RdsPrivateState) : Frames s s := ⟨rfl, rfl, rfl, rfl, rfl⟩

theorem frames_trans {s t u : RdsPrivateState} (h1 : Frames s t) (h2 : Frames t u) :
    Frames s u := by
  obtain ⟨a1, b1, c1, d1, e1⟩ := h1
  obtain ⟨a2, b2, c2, d2, e2⟩ := h2
  exact ⟨a2.trans a1, b2.trans b1, c2.trans c1, d2.trans d1, e2.trans e1⟩

theorem frames_decode_a (s : RdsPrivateState) (d : RdsData) :
    Frames s (rds_decode_a s d).1 := by
  unfold Frames; simp only [rds_decode_a]; split_ifs <;> simp

@[simp] theorem decode_a_ds (s : RdsPrivateState) (d : RdsData) :
    (rds_decode_a s d).1.decode_state = s.decode_state := (frames_decode_a s d).1

@[simp] theorem decode_a_gcnt (s : RdsPrivateState) (d : RdsData) :
    (rds_decode_a s d).1.handle.rds_statistics.group_cnt =
      s.handle.rds_statistics.group_cnt := (frames_decode_a s d).2.1

@[simp] theorem decode_a_pty (s : RdsPrivateState) (d : RdsData) :
    (rds_decode_a s d).1.handle.pty = s.handle.pty := (frames_decode_a s d).2.2.1

@[simp] theorem decode_a_new_pty (s : RdsPrivateState) (d : RdsData) :
    (rds_decode_a s d).1.new_pty = s.new_pty := (frames_decode_a s d).2.2.2.1

@[simp] theorem decode_a_af (s : RdsPrivateState) (d : RdsData) :
    (rds_decode_a s d).1.handle.rds_af = s.handle.rds_af := (frames_decode_a s d).2.2.2.2

@[simp] theorem decode_a_group_id (s : RdsPrivateState) (d : RdsData) :
    (rds_decode_a s d).1.rds_group.group_id = s.rds_group.group_id := by
  simp only [rds_decode_a]; split_ifs <;> simp

@[simp] theorem decode_a_group_version (s : RdsPrivateState) (d : RdsData) :
    (rds_decode_a s d).1.rds_group.group_version = s.rds_group.group_version := by
  simp only [rds_decode_a]; split_ifs <;> simp

@[simp] theorem decode_a_c_msb (s : RdsPrivateState) (d : RdsData) :
    (rds_decode_a s d).1.rds_group.data_c_msb = s.rds_group.data_c_msb := by
  simp only [rds_decode_a]; split_ifs <;> simp

theorem decode_b_frame (s : RdsPrivateState) (d : RdsData) :
    (rds_decode_b s d).1.decode_state = s.decode_state ∧
    (rds_decode_b s d).1.handle.rds_statistics.group_cnt =
      s.handle.rds_statistics.group_cnt ∧
    (rds_decode_b s d).1.handle.rds_af = s.handle.rds_af := by
  simp only [rds_decode_b]; split_ifs <;> simp

@[simp] theorem decode_b_ds (s : RdsPrivateState) (d : RdsData) :
    (rds_decode_b s d).1.decode_state = s.decode_state := (decode_b_frame s d).1

@[simp] theorem decode_b_gcnt (s : RdsPrivateState) (d : RdsData) :
    (rds_decode_b s d).1.handle.rds_statistics.group_cnt =
      s.handle.rds_statistics.group_cnt := (decode_b_frame s d).2.1

@[simp] theorem decode_b_af (s : RdsPrivateState) (d : RdsData) :
    (rds_decode_b s d).1.handle.rds_af = s.handle.rds_af := (decode_b_frame s d).2.2

theorem decode_b_pty_lt (s : RdsPrivateState) (d : RdsData)
    (h1 : s.handle.pty < 32) (h2 : s.new_pty < 32) :
    (rds_decode_b s d).1.handle.pty < 32 ∧ (rds_decode_b s d).1.new_pty < 32 := by
  have hm : ∀ n : Nat, n &&& 0x1f < 32 :=
    fun n => lt_of_le_of_lt Nat.and_le_right (by norm_num)
  simp only [rds_decode_b]; split_ifs <;> simp <;>
    first | exact h1 | exact h2 | exact hm _ | exact ⟨h1, hm _⟩ | exact ⟨h2, hm _⟩ |
      exact ⟨hm _, hm _⟩ | exact ⟨h1, h2⟩ | exact ⟨h2, h2⟩

@[simp] theorem decode_b_group_id (s : RdsPrivateState) (d : RdsData) :
    (rds_decode_b s d).1.rds_group.group_id = d.msb >>> 4 := by
  simp only [rds_decode_b]; split_ifs <;> simp

@[simp] theorem decode_b_group_version (s : RdsPrivateState) (d : RdsData) :
    (rds_decode_b s d).1.rds_group.group_version =
      if d.msb &&& 0x08 ≠ 0 then 66 else 65 := by
  simp only [rds_decode_b]; split_ifs <;> simp

@[simp] theorem decode_b_c_msb (s : RdsPrivateState) (d : RdsData) :
    (rds_decode_b s d).1.rds_group.data_c_msb = s.rds_group.data_c_msb := by
  simp only [rds_decode_b]; split_ifs <;> simp

@[simp] theorem decode_c_eq (s : RdsPrivateState) (d : RdsData) :
    rds_decode_c s d = { s with rds_group := { s.rds_group with
      data_c_msb := d.msb, data_c_lsb := d.lsb } } := rfl

@[simp] theorem decode_d_eq (s : RdsPrivateState) (d : RdsData) :
    rds_decode_d s d = { s with rds_group := { s.rds_group with
      data_d_msb := d.msb, data_d_lsb := d.lsb } } := rfl

theorem frames_add_ps (s : RdsPrivateState) (pos ch : Nat) :
    Frames s (rds_add_ps s pos ch).2 := by
  unfold Frames; simp only [rds_add_ps]; split_ifs <;> simp

@[simp] theorem add_ps_ds (s : RdsPrivateState) (pos ch : Nat) :
    (rds_add_ps s pos ch).2.decode_state = s.decode_state := (frames_add_ps s pos ch).1

@[simp] theorem add_ps_gcnt (s : RdsPrivateState) (pos ch : Nat) :
    (rds_add_ps s pos ch).2.handle.rds_statistics.group_cnt =
      s.handle.rds_statistics.group_cnt := (frames_add_ps s pos ch).2.1

@[simp] theorem add_ps_pty (s : RdsPrivateState) (pos ch : Nat) :
    (rds_add_ps s pos ch).2.handle.pty = s.handle.pty := (frames_add_ps s pos ch).2.2.1

@[simp] theorem add_ps_new_pty (s : RdsPrivateState) (pos ch : Nat) :
    (rds_add_ps s pos ch).2.new_pty = s.new_pty := (frames_add_ps s pos ch).2.2.2.1

@[simp] theorem add_ps_af (s : RdsPrivateState) (pos ch : Nat) :
    (rds_add_ps s pos ch).2.handle.rds_af = s.handle.rds_af :=
  (frames_add_ps s pos ch).2.2.2.2

@[simp] theorem add_ps_group (s : RdsPrivateState) (pos ch : Nat) :
    (rds_add_ps s pos ch).2.rds_group = s.rds_group := by
  simp only [rds_add_ps]; split_ifs <;> simp

theorem frames_add_oda (s : RdsPrivateState) (oda : RdsOda) :
    Frames s (rds_add_oda s oda).2 := by
  unfold Frames
  cases hl : s.handle.rds_oda with
  | nil => simp only [rds_add_oda, hl]; split_ifs <;> simp
  | cons e0 rest => simp only [rds_add_oda, hl]; split_ifs <;> simp

theorem frames_tmc_decode_additional (s : RdsPrivateState) :
    Frames s (rds_tmc_decode_additional s) := by
  unfold Frames; simp [rds_tmc_decode_additional]

theorem frames_tmc_system (s : RdsPrivateState) :
    Frames s (rds_decode_tmc_system s).1 := by
  unfold Frames; simp only [rds_decode_tmc_system]; split_ifs <;> simp

theorem frames_tmc_single (s : RdsPrivateState) :
    Frames s (rds_decode_tmc_single_group s).1 := by
  unfold Frames; simp [rds_decode_tmc_single_group]

theorem frames_tmc_multi (s : RdsPrivateState) :
    Frames s (rds_decode_tmc_multi_group s).1 := by
  unfold Frames; simp only [rds_decode_tmc_multi_group]
  split_ifs <;> simp [rds_tmc_decode_additional]

theorem frames_group1 (s : RdsPrivateState) :
    Frames s (rds_decode_group1 s).1 := by
  unfold Frames; simp only [rds_decode_group1]; split_ifs <;> simp

theorem frames_cr_step (st : RdsPrivateState × Nat) (i : Nat) :
    Frames st.1 (rds_rt_cr_step st i).1 := by
  unfold Frames; simp only [rds_rt_cr_step]; split_ifs <;> simp

theorem frames_cr_scan (fuel : Nat) : ∀ (i : Nat) (st : RdsPrivateState × Nat),
    Frames st.1 (rds_rt_cr_scan fuel i st).1 := by
  induction fuel with
  | zero => intro i st; exact frames_refl _
  | succ n ih =>
    intro i st
    simp only [rds_rt_cr_scan]
    exact frames_trans (frames_cr_step st i) (ih (i + 1) _)

theorem frames_group2 (s : RdsPrivateState) :
    Frames s (rds_decode_group2 s).1 := by
  simp only [rds_decode_group2]
  split_ifs <;>
    exact frames_trans ⟨rfl, rfl, rfl, rfl, rfl⟩ (frames_cr_scan 64 0 _)

theorem frames_group3 (s : RdsPrivateState) :
    Frames s (rds_decode_group3 s).1 := by
  simp only [rds_decode_group3]
  split_ifs <;>
    first
    | exact frames_refl s
    | exact frames_add_oda s _
    | exact frames_trans (frames_add_oda s _) ⟨rfl, rfl, rfl, rfl, rfl⟩
    | exact frames_trans (frames_add_oda s _) (frames_tmc_system _)
    | exact frames_trans (frames_trans (frames_add_oda s _) ⟨rfl, rfl, rfl, rfl, rfl⟩)
        (frames_tmc_system _)

theorem frames_group4 (s : RdsPrivateState) :
    Frames s (rds_decode_group4 s).1 := by
  unfold Frames; simp only [rds_decode_group4]; split_ifs <;> simp

theorem frames_group8 (s : RdsPrivateState) :
    Frames s (rds_decode_group8 s).1 := by
  simp only [rds_decode_group8]
  split_ifs <;>
    first
    | exact frames_refl s
    | exact ⟨rfl, rfl, rfl, rfl, rfl⟩
    | exact frames_trans ⟨rfl, rfl, rfl, rfl, rfl⟩ (frames_tmc_single _)
    | exact frames_trans ⟨rfl, rfl, rfl, rfl, rfl⟩ (frames_tmc_multi _)

theorem frames_group10 (s : RdsPrivateState) :
    Frames s (rds_decode_group10 s).1 := by
  unfold Frames; simp only [rds_decode_group10]; split_ifs <;> simp

theorem frames_ctl {s t : RdsPrivateState} (h : Frames s t) : CtlFrames s t :=
  ⟨h.1, h.2.1, h.2.2.1, h.2.2.2.1⟩

theorem ctl_refl (s : RdsPrivateState) : CtlFrames s s := ⟨rfl, rfl, rfl, rfl⟩

theorem ctl_trans {s t u : RdsPrivateState} (h1 : CtlFrames s t) (h2 : CtlFrames t u) :
    CtlFrames s u := by
  obtain ⟨a1, b1, c1, d1⟩ := h1
  obtain ⟨a2, b2, c2, d2⟩ := h2
  exact ⟨a2.trans a1, b2.trans b1, c2.trans c1, d2.trans d1⟩

theorem ctl_add_af (s : RdsPrivateState) : CtlFrames s (rds_add_af s).2 := by
  unfold CtlFrames; simp only [rds_add_af]; split_ifs <;> simp

@[simp] theorem add_af_ds (s : RdsPrivateState) :
    (rds_add_af s).2.decode_state = s.decode_state := (ctl_add_af s).1

@[simp] theorem add_af_gcnt (s : RdsPrivateState) :
    (rds_add_af s).2.handle.rds_statistics.group_cnt =
      s.handle.rds_statistics.group_cnt := (ctl_add_af s).2.1

@[simp] theorem add_af_pty (s : RdsPrivateState) :
    (rds_add_af s).2.handle.pty = s.handle.pty := (ctl_add_af s).2.2.1

@[simp] theorem add_af_new_pty (s : RdsPrivateState) :
    (rds_add_af s).2.new_pty = s.new_pty := (ctl_add_af s).2.2.2

theorem ctl_group0_flags (s : RdsPrivateState) :
    CtlFrames s (rds_decode_group0_flags s).1 := by
  unfold CtlFrames; simp only [rds_decode_group0_flags]; split_ifs <;> simp

theorem ctl_group0_ps (st : RdsPrivateState × Nat) :
    CtlFrames st.1 (rds_decode_group0_ps st).1 := by
  unfold CtlFrames; simp only [rds_decode_group0_ps]; split_ifs <;> simp

theorem ctl_group0_di (st : RdsPrivateState × Nat) :
    CtlFrames st.1 (rds_decode_group0_di st).1 := by
  unfold CtlFrames; simp only [rds_decode_group0_di]; split_ifs <;> simp

theorem ctl_group0_af (st : RdsPrivateState × Nat) :
    CtlFrames st.1 (rds_decode_group0_af st).1 := by
  unfold CtlFrames; simp only [rds_decode_group0_af]; split_ifs <;> simp

theorem ctl_group0 (s : RdsPrivateState) : CtlFrames s (rds_decode_group0 s).1 := by
  simp only [rds_decode_group0]
  exact ctl_trans (ctl_group0_flags s) (ctl_trans (ctl_group0_ps _)
    (ctl_trans (ctl_group0_di _) (ctl_group0_af _)))

theorem ctl_bump (s : RdsPrivateState) (l : List Nat) :
    CtlFrames s { s with handle := { s.handle with rds_statistics :=
      { s.handle.rds_statistics with group_type_cnt := l } } } := ⟨rfl, rfl, rfl, rfl⟩

theorem ctl_decode_group (s : RdsPrivateState) : CtlFrames s (rds_decode_group s).1 := by
  simp only [rds_decode_group]
  split_ifs
  · exact ctl_trans (ctl_bump s _) (ctl_group0 _)
  · exact ctl_trans (ctl_bump s _) (frames_ctl (frames_group1 _))
  · exact ctl_trans (ctl_bump s _) (frames_ctl (frames_group2 _))
  · exact ctl_trans (ctl_bump s _) (frames_ctl (frames_group3 _))
  · exact ctl_trans (ctl_bump s _) (frames_ctl (frames_group4 _))
  · exact ctl_trans (ctl_bump s _) (frames_ctl (frames_group8 _))
  · exact ctl_trans (ctl_bump s _) (frames_ctl (frames_group10 _))
  · exact ctl_bump s _

@[simp] theorem decode_group_ds (s : RdsPrivateState) :
    (rds_decode_group s).1.decode_state = s.decode_state := (ctl_decode_group s).1

@[simp] theorem decode_group_gcnt (s : RdsPrivateState) :
    (rds_decode_group s).1.handle.rds_statistics.group_cnt =
      s.handle.rds_statistics.group_cnt := (ctl_decode_group s).2.1

theorem ctl_complete (s : RdsPrivateState) :
    (rds_complete_group s).1.decode_state = s.decode_state ∧
    (rds_complete_group s).1.handle.rds_statistics.group_cnt =
      s.handle.rds_statistics.group_cnt := by
  simp only [rds_complete_group]
  constructor <;> simp

@[simp] theorem complete_ds (s : RdsPrivateState) :
    (rds_complete_group s).1.decode_state = s.decode_state := (ctl_complete s).1

@[simp] theorem complete_gcnt (s : RdsPrivateState) :
    (rds_complete_group s).1.handle.rds_statistics.group_cnt =
      s.handle.rds_statistics.group_cnt := (ctl_complete s).2

@[simp] theorem decode_group_pty (s : RdsPrivateState) :
    (rds_decode_group s).1.handle.pty = s.handle.pty := (ctl_decode_group s).2.2.1

@[simp] theorem decode_group_new_pty (s : RdsPrivateState) :
    (rds_decode_group s).1.new_pty = s.new_pty := (ctl_decode_group s).2.2.2

@[simp] theorem decode_a_raw (s : RdsPrivateState) (d : RdsData) :
    (rds_decode_a s d).1.rds_data_raw = s.rds_data_raw := by
  simp only [rds_decode_a]; split_ifs <;> simp

@[simp] theorem decode_b_raw (s : RdsPrivateState) (d : RdsData) :
    (rds_decode_b s d).1.rds_data_raw = s.rds_data_raw := by
  simp only [rds_decode_b]; split_ifs <;> simp

theorem complete_pty_lt (s : RdsPrivateState)
    (h1 : s.handle.pty < 32) (h2 : s.new_pty < 32) :
    (rds_complete_group s).1.handle.pty < 32 ∧
    (rds_complete_group s).1.new_pty < 32 := by
  simp only [rds_complete_group, decode_c_eq, decode_d_eq, decode_group_pty,
    decode_group_new_pty]
  refine decode_b_pty_lt _ _ ?_ ?_
  · simpa using h1
  · simpa using h2

@[simp] theorem block_id_norm (b : RdsData) :
    rds_block_id (rds_norm_block b) = rds_block_id b := rfl

theorem add_gcnt (s : RdsPrivateState) (b : RdsData) :
    (v4l2_rds_add s b).1.handle.rds_statistics.group_cnt =
      (if s.decode_state = .rds_c_received ∧ rds_block_id b = 3
       then s.handle.rds_statistics.group_cnt + 1
       else s.handle.rds_statistics.group_cnt) := by
  simp only [v4l2_rds_add, block_id_norm]
  cases hds : s.decode_state <;>
    simp only [hds] <;> split_ifs <;>
      simp_all [rds_bump_group_error]

theorem add_pty_lt (s : RdsPrivateState) (b : RdsData)
    (h1 : s.handle.pty < 32) (h2 : s.new_pty < 32) :
    (v4l2_rds_add s b).1.handle.pty < 32 ∧ (v4l2_rds_add s b).1.new_pty < 32 := by
  simp only [v4l2_rds_add, block_id_norm]
  cases hds : s.decode_state <;>
    simp only [hds] <;> split_ifs <;>
      first
      | exact ⟨h1, h2⟩
      | exact complete_pty_lt _ h1 h2
      | simp_all [rds_bump_group_error]

theorem reachable_pty_lt {s : RdsPrivateState} (h : RdsReachable s) :
    s.handle.pty < 32 ∧ s.new_pty < 32 := by
  induction h with
  | create is_rbds => exact ⟨by norm_num [v4l2_rds_create, zeroPrivateState, zeroV4l2Rds],
      by norm_num [v4l2_rds_create, zeroPrivateState, zeroV4l2Rds]⟩
  | add b hs ih => exact add_pty_lt _ b ih.1 ih.2
  | reset rs hs ih =>
    constructor <;>
      simp [v4l2_rds_reset, zeroPrivateState, zeroV4l2Rds] <;> split_ifs <;> simp

theorem assemblerInv_step {p : List RdsData} {s : RdsPrivateState} (b : RdsData)
    (h : rdsAssemblerInv p s) : rdsAssemblerInv (p ++ [b]) (v4l2_rds_add s b).1 := by
  obtain ⟨hA, hB, hC⟩ := h
  cases hds : s.decode_state
  case rds_empty =>
    by_cases hid : rds_block_id b = 0
    · simp only [v4l2_rds_add, block_id_norm, hds, hid]
      refine ⟨fun _ => ⟨p, b, rfl, hid, by simp⟩,
        fun hcon => by simp at hcon, fun hcon => by simp at hcon⟩
    · simp only [v4l2_rds_add, block_id_norm, hds, if_neg hid]
      refine ⟨fun hcon => ?_, fun hcon => ?_, fun hcon => ?_⟩ <;>
        simp [rds_bump_group_error, hds] at hcon
  case rds_a_received =>
    obtain ⟨q, a, hp, hga, hraw⟩ := hA hds
    by_cases hid : rds_block_id b = 1
    · simp only [v4l2_rds_add, block_id_norm, hds, hid]
      refine ⟨fun hcon => by simp at hcon,
        fun _ => ⟨q, a, b, by simp [hp], hga, hid, by simp [hraw]⟩,
        fun hcon => by simp at hcon⟩
    · simp only [v4l2_rds_add, block_id_norm, hds, if_neg hid]
      refine ⟨fun hcon => ?_, fun hcon => ?_, fun hcon => ?_⟩ <;>
        simp [rds_bump_group_error] at hcon
  case rds_b_received =>
    obtain ⟨q, a, bb, hp, hga, hgb, hraw⟩ := hB hds
    by_cases hid : rds_block_id b = 2 ∨ rds_block_id b = 4
    · simp only [v4l2_rds_add, block_id_norm, hds, hid]
      have : (if rds_block_id b = 2 ∨ rds_block_id b = 4 then True else False) := by
        simp [hid]
      refine ⟨fun hcon => ?_, fun hcon => ?_, fun _ => ⟨q, a, bb, b, by simp [hp],
        hga, hgb, hid, by simp [hraw]⟩⟩ <;>
        · rcases hid with hid | hid <;> simp [hid] at hcon
    · simp only [v4l2_rds_add, block_id_norm, hds, if_neg hid]
      refine ⟨fun hcon => ?_, fun hcon => ?_, fun hcon => ?_⟩ <;>
        simp [rds_bump_group_error] at hcon
  case rds_c_received =>
    by_cases hid : rds_block_id b = 3
    · simp only [v4l2_rds_add, block_id_norm, hds, hid]
      refine ⟨fun hcon => ?_, fun hcon => ?_, fun hcon => ?_⟩ <;> simp at hcon
    · simp only [v4l2_rds_add, block_id_norm, hds, if_neg hid]
      refine ⟨fun hcon => ?_, fun hcon => ?_, fun hcon => ?_⟩ <;>
        simp [rds_bump_group_error] at hcon

@[simp] theorem rdsRun_nil (s : RdsPrivateState) : rdsRun s [] = s := rfl

@[simp] theorem rdsRun_cons (s : RdsPrivateState) (b : RdsData) (bs : List RdsData) :
    rdsRun s (b :: bs) = rdsRun (v4l2_rds_add s b).1 bs := rfl

theorem rdsRun_append (s : RdsPrivateState) (l1 l2 : List RdsData) :
    rdsRun s (l1 ++ l2) = rdsRun (rdsRun s l1) l2 := by
  simp [rdsRun, List.foldl_append]

theorem assemblerInv_run : ∀ (bs p : List RdsData) (s : RdsPrivateState),
    rdsAssemblerInv p s → rdsAssemblerInv (p ++ bs) (rdsRun s bs) := by
  intro bs
  induction bs with
  | nil => intro p s h; simpa using h
  | cons b rest ih =>
    intro p s h
    have h2 := assemblerInv_step b h
    have h3 := ih (p ++ [b]) _ h2
    simpa using h3

theorem assemblerInv_init (is_rbds : Bool) :
    rdsAssemblerInv [] (v4l2_rds_create is_rbds) := by
  refine ⟨fun hcon => ?_, fun hcon => ?_, fun hcon => ?_⟩ <;>
    simp [v4l2_rds_create, zeroPrivateState] at hcon

theorem assemblerInv_of_run (is_rbds : Bool) (bs : List RdsData) :
    rdsAssemblerInv bs (rdsRun (v4l2_rds_create is_rbds) bs) := by
  have := assemblerInv_run bs [] _ (assemblerInv_init is_rbds)
  simpa using this

/-- C2 helper: a step that changed `group_cnt` happened in state
`RDS_C_RECEIVED` on a good D block. -/
theorem gcnt_change {s : RdsPrivateState} {b : RdsData}
    (h : (v4l2_rds_add s b).1.handle.rds_statistics.group_cnt ≠
      s.handle.rds_statistics.group_cnt) :
    s.decode_state = .rds_c_received ∧ goodBlockD b := by
  by_cases hc : s.decode_state = .rds_c_received ∧ rds_block_id b = 3
  · exact hc
  · exfalso; apply h; rw [add_gcnt, if_neg hc]

theorem no_pattern_aux : ∀ (rest p : List RdsData) (s : RdsPrivateState),
    rdsAssemblerInv p s → s.handle.rds_statistics.group_cnt = 0 →
    (¬ ∃ (q : List RdsData) (a bb c d : RdsData) (r : List RdsData),
      p ++ rest = q ++ a :: bb :: c :: d :: r ∧
      goodBlockA a ∧ goodBlockB bb ∧ goodBlockC c ∧ goodBlockD d) →
    (rdsRun s rest).handle.rds_statistics.group_cnt = 0 := by
  intro rest
  induction rest with
  | nil => intro p s _ hg _; simpa using hg
  | cons b rest ih =>
    intro p s hinv hg hno
    rw [rdsRun_cons]
    by_cases hc : s.decode_state = .rds_c_received ∧ rds_block_id b = 3
    · exfalso
      obtain ⟨q, a, bb, c, hp, hga, hgb, hgc, -⟩ := hinv.2.2 hc.1
      exact hno ⟨q, a, bb, c, b, rest, by simp [hp], hga, hgb, hgc, hc.2⟩
    · have hg2 : (v4l2_rds_add s b).1.handle.rds_statistics.group_cnt = 0 := by
        rw [add_gcnt, if_neg hc]; exact hg
      have := ih (p ++ [b]) _ (assemblerInv_step b hinv) hg2 (by simpa using hno)
      exact this

/-- C2: a group is published (the group counter moves) only when the three
previously ingested blocks carried ids A, B, C or C-prime in order and the new
block is a good D block; and a sequence containing no strict non-errored
A, B, C, D run publishes no group at all. -/
theorem claim_C2 :
    (∀ (is_rbds : Bool) (pre : List RdsData) (b : RdsData),
      (rdsRun (v4l2_rds_create is_rbds) (pre ++ [b])).handle.rds_statistics.group_cnt ≠
        (rdsRun (v4l2_rds_create is_rbds) pre).handle.rds_statistics.group_cnt →
      goodBlockD b ∧
        ∃ q a bb c, pre = q ++ [a, bb, c] ∧ goodBlockA a ∧ goodBlockB bb ∧ goodBlockC c) ∧
    (∀ (is_rbds : Bool) (bs : List RdsData),
      (¬ ∃ (q : List RdsData) (a bb c d : RdsData) (r : List RdsData),
        bs = q ++ a :: bb :: c :: d :: r ∧
        goodBlockA a ∧ goodBlockB bb ∧ goodBlockC c ∧ goodBlockD d) →
      (rdsRun (v4l2_rds_create is_rbds) bs).handle.rds_statistics.group_cnt = 0) := by
  constructor
  · intro is_rbds pre b h
    rw [rdsRun_append] at h
    obtain ⟨hds, hd⟩ := gcnt_change (by simpa using h)
    obtain ⟨q, a, bb, c, hp, hga, hgb, hgc, -⟩ :=
      (assemblerInv_of_run is_rbds pre).2.2 hds
    exact ⟨hd, q, a, bb, c, hp, hga, hgb, hgc⟩
  · intro is_rbds bs hno
    have := no_pattern_aux bs [] _ (assemblerInv_init is_rbds) (by
      simp [v4l2_rds_create, zeroPrivateState, zeroV4l2Rds, zeroRdsStatistics]) (by simpa using hno)
    simpa using this

theorem claim_C2_witness :
    ((goodBlockD (⟨0x00, 0x00, 3, false, false⟩ : RdsData) ∧
      ∃ q a bb c, c2_blocks.take 3 = q ++ [a, bb, c] ∧
        goodBlockA a ∧ goodBlockB bb ∧ goodBlockC c) ∧
     (rdsRun (v4l2_rds_create false)
       [⟨0x00, 0x00, 1, false, false⟩]).handle.rds_statistics.group_cnt = 0) :=
  ⟨claim_C2.1 false (c2_blocks.take 3) ⟨0x00, 0x00, 3, false, false⟩ (by decide),
   claim_C2.2 false [⟨0x00, 0x00, 1, false, false⟩] (by
     rintro ⟨q, a, bb, c, d, r, hbs, -⟩
     have := congrArg List.length hbs
     simp at this
     omega)⟩

theorem add_af_to_list_zero (aset : RdsAfSet) (x : Nat) (v : Bool)
    (h : aset.announced_af = 0) : rds_add_af_to_list aset x v = (false, aset) := by
  simp only [rds_add_af_to_list]
  split_ifs with h1 h2 h3 <;> first | rfl | (exfalso; omega) | (exfalso; simp [h] at h2)

theorem add_af_zero (s : RdsPrivateState)
    (hann : s.handle.rds_af.announced_af = 0)
    (hc : ¬ (224 ≤ s.rds_group.data_c_msb ∧ s.rds_group.data_c_msb ≤ 249)) :
    (rds_add_af s).2.handle.rds_af = s.handle.rds_af := by
  simp only [rds_add_af]
  simp only [add_af_to_list_zero _ _ _ hann]
  split_ifs <;> simp_all [add_af_to_list_zero _ _ _ hann]

@[simp] theorem g0flags_af (s : RdsPrivateState) :
    (rds_decode_group0_flags s).1.handle.rds_af = s.handle.rds_af := by
  simp only [rds_decode_group0_flags]; split_ifs <;> simp

@[simp] theorem g0flags_group (s : RdsPrivateState) :
    (rds_decode_group0_flags s).1.rds_group = s.rds_group := by
  simp only [rds_decode_group0_flags]; split_ifs <;> simp

@[simp] theorem g0ps_af (st : RdsPrivateState × Nat) :
    (rds_decode_group0_ps st).1.handle.rds_af = st.1.handle.rds_af := by
  simp only [rds_decode_group0_ps]; split_ifs <;> simp

@[simp] theorem g0ps_group (st : RdsPrivateState × Nat) :
    (rds_decode_group0_ps st).1.rds_group = st.1.rds_group := by
  simp only [rds_decode_group0_ps]; split_ifs <;> simp

@[simp] theorem g0di_af (st : RdsPrivateState × Nat) :
    (rds_decode_group0_di st).1.handle.rds_af = st.1.handle.rds_af := by
  simp only [rds_decode_group0_di]; split_ifs <;> simp

@[simp] theorem g0di_group (st : RdsPrivateState × Nat) :
    (rds_decode_group0_di st).1.rds_group = st.1.rds_group := by
  simp only [rds_decode_group0_di]; split_ifs <;> simp

theorem group0_af_zero (s : RdsPrivateState)
    (hann : s.handle.rds_af.announced_af = 0)
    (hc : ¬ (s.rds_group.group_version = 65 ∧
      224 ≤ s.rds_group.data_c_msb ∧ s.rds_group.data_c_msb ≤ 249)) :
    (rds_decode_group0 s).1.handle.rds_af = s.handle.rds_af := by
  simp only [rds_decode_group0, rds_decode_group0_af]
  set t := rds_decode_group0_di (rds_decode_group0_ps (rds_decode_group0_flags s)) with ht
  have hgt : t.1.rds_group = s.rds_group := by simp [ht]
  have hat : t.1.handle.rds_af = s.handle.rds_af := by simp [ht]
  split_ifs with hv h2
  · have hv2 : s.rds_group.group_version = 65 := by rw [← hgt]; exact hv
    rw [add_af_zero t.1 (by rw [hat]; exact hann)
      (by rw [hgt]; intro hcc; exact hc ⟨hv2, hcc⟩)]
    exact hat
  · have hv2 : s.rds_group.group_version = 65 := by rw [← hgt]; exact hv
    rw [add_af_zero t.1 (by rw [hat]; exact hann)
      (by rw [hgt]; intro hcc; exact hc ⟨hv2, hcc⟩)]
    exact hat
  · exact hat

@[simp] theorem g1_af (s : RdsPrivateState) :
    (rds_decode_group1 s).1.handle.rds_af = s.handle.rds_af := (frames_group1 s).2.2.2.2

@[simp] theorem g2_af (s : RdsPrivateState) :
    (rds_decode_group2 s).1.handle.rds_af = s.handle.rds_af := (frames_group2 s).2.2.2.2

@[simp] theorem g3_af (s : RdsPrivateState) :
    (rds_decode_group3 s).1.handle.rds_af = s.handle.rds_af := (frames_group3 s).2.2.2.2

@[simp] theorem g4_af (s : RdsPrivateState) :
    (rds_decode_group4 s).1.handle.rds_af = s.handle.rds_af := (frames_group4 s).2.2.2.2

@[simp] theorem g8_af (s : RdsPrivateState) :
    (rds_decode_group8 s).1.handle.rds_af = s.handle.rds_af := (frames_group8 s).2.2.2.2

@[simp] theorem g10_af (s : RdsPrivateState) :
    (rds_decode_group10 s).1.handle.rds_af = s.handle.rds_af := (frames_group10 s).2.2.2.2

theorem decode_group_af_zero (s : RdsPrivateState)
    (hann : s.handle.rds_af.announced_af = 0)
    (hcond : ¬ (s.rds_group.group_id = 0 ∧ s.rds_group.group_version = 65 ∧
      224 ≤ s.rds_group.data_c_msb ∧ s.rds_group.data_c_msb ≤ 249)) :
    (rds_decode_group s).1.handle.rds_af = s.handle.rds_af := by
  simp only [rds_decode_group]
  split_ifs with h0
  case pos =>
    rw [group0_af_zero _ (by simpa using hann) (by
      intro ⟨hv, hr⟩
      exact hcond ⟨h0, hv, hr⟩)]
  all_goals simp

theorem complete_af_zero (s : RdsPrivateState)
    (hann : s.handle.rds_af.announced_af = 0)
    (hno : ¬ ((s.rds_data_raw.getD 1 zeroRdsData).msb >>> 4 = 0 ∧
       (s.rds_data_raw.getD 1 zeroRdsData).msb &&& 0x08 = 0 ∧
       224 ≤ (s.rds_data_raw.getD 2 zeroRdsData).msb ∧
       (s.rds_data_raw.getD 2 zeroRdsData).msb ≤ 249)) :
    (rds_complete_group s).1.handle.rds_af = s.handle.rds_af := by
  simp only [rds_complete_group, decode_c_eq, decode_d_eq]
  rw [decode_group_af_zero]
  · simp
  · simp [hann]
  · simp only [decode_b_group_id, decode_b_group_version, decode_a_raw, decode_b_raw]
    rintro ⟨hg, hv, hr1, hr2⟩
    apply hno
    refine ⟨by simpa using hg, ?_, by simpa using hr1, by simpa using hr2⟩
    by_cases hb : (s.rds_data_raw.getD 1 zeroRdsData).msb &&& 0x08 = 0
    · exact hb
    · simpa [List.getD_eq_getElem?_getD] using hv

theorem c9_aux : ∀ (rest p : List RdsData) (s : RdsPrivateState),
    rdsAssemblerInv p s → s.handle.rds_af = zeroRdsAfSet →
    (¬ ∃ (q : List RdsData) (a bb c d : RdsData) (r : List RdsData),
      p ++ rest = q ++ a :: bb :: c :: d :: r ∧
      goodBlockA a ∧ goodBlockB bb ∧ goodBlockC c ∧ goodBlockD d ∧
      isAfAnnouncement bb c) →
    (rdsRun s rest).handle.rds_af = zeroRdsAfSet := by
  intro rest
  induction rest with
  | nil => intro p s _ hz _; simpa using hz
  | cons b rest ih =>
    intro p s hinv hz hno
    rw [rdsRun_cons]
    have hann : s.handle.rds_af.announced_af = 0 := by rw [hz]; rfl
    by_cases hc : s.decode_state = .rds_c_received ∧ rds_block_id b = 3
    · obtain ⟨q, a, bb, c, hp, hga, hgb, hgc, hraw⟩ := hinv.2.2 hc.1
      by_cases hann2 : isAfAnnouncement bb c
      · exact absurd ⟨q, a, bb, c, b, rest, by simp [hp], hga, hgb, hgc, hc.2, hann2⟩ hno
      · have haf : (v4l2_rds_add s b).1.handle.rds_af = s.handle.rds_af := by
          simp only [v4l2_rds_add, block_id_norm, hc.1, hc.2, if_true]
          rw [complete_af_zero]
          · simpa using hann
          · simp only [hraw]
            intro hcc
            exact hann2 (by simpa [List.getD] using hcc)
        apply ih (p ++ [b]) _ (assemblerInv_step b hinv) (by rw [haf, hz]) (by simpa using hno)
    · have haf : (v4l2_rds_add s b).1.handle.rds_af = s.handle.rds_af := by
        simp only [v4l2_rds_add, block_id_norm]
        cases hds : s.decode_state
        case rds_c_received =>
          have h3 : (rds_block_id b = 3) = False := eq_false fun hb => hc ⟨hds, hb⟩
          simp only [h3, if_false]
          split_ifs <;> simp [rds_bump_group_error]
        all_goals simp only [hds] <;> split_ifs <;> simp [rds_bump_group_error]
      apply ih (p ++ [b]) _ (assemblerInv_step b hinv) (by rw [haf, hz]) (by simpa using hno)

/-- C9: starting from a freshly created decoder, a block sequence with no
completed group announcing an AF count (a strict A, B, C, D run whose block B
selects group 0 version A and whose block C msb lies in 224..249) leaves the
alternative-frequency set in its initial state: no stored frequencies and an
announced count of zero. -/
theorem claim_C9 (is_rbds : Bool) (bs : List RdsData)
    (hno : ¬ ∃ (q : List RdsData) (a bb c d : RdsData) (r : List RdsData),
      bs = q ++ a :: bb :: c :: d :: r ∧
      goodBlockA a ∧ goodBlockB bb ∧ goodBlockC c ∧ goodBlockD d ∧
      isAfAnnouncement bb c) :
    (rdsRun (v4l2_rds_create is_rbds) bs).handle.rds_af = zeroRdsAfSet :=
  c9_aux bs [] _ (assemblerInv_init is_rbds) rfl (by simpa using hno)

theorem claim_C9_witness :
    (rdsRun (v4l2_rds_create false)
      [⟨0x12, 0x34, 0, false, false⟩]).handle.rds_af = zeroRdsAfSet :=
  claim_C9 false [⟨0x12, 0x34, 0, false, false⟩] (by
    rintro ⟨q, a, bb, c, d, r, h, -⟩
    have hl := congrArg List.length h
    simp at hl
    omega)

/-- C10: in every state reachable through create, add and reset, the published
pty stays below 32, and get_pty_str returns an actual table entry on it. -/
theorem claim_C10 {s : RdsPrivateState} (h : RdsReachable s) :
    s.handle.pty < 32 ∧ (v4l2_rds_get_pty_str s.handle).isSome = true := by
  obtain ⟨h1, -⟩ := reachable_pty_lt h
  refine ⟨h1, ?_⟩
  simp [v4l2_rds_get_pty_str, Nat.not_le.mpr h1]
  split_ifs <;> simp

theorem claim_C10_witness :
    (v4l2_rds_create true).handle.pty < 32 ∧
      (v4l2_rds_get_pty_str (v4l2_rds_create true).handle).isSome = true :=
  claim_C10 (RdsReachable.create true)

/-- C7 (counterexample): after announcing three AFs, storing three
frequencies, and then announcing a count of one, the AF list holds three
entries while the announced count is one, so the size bound
min(MAX_AF, announced count) of the claim fails with a nonzero announced
count. -/
theorem claim_C7_counterexample :
    (rdsRun (v4l2_rds_create false) c7bs).handle.rds_af.announced_af ≠ 0 ∧
    ¬ ((rdsRun (v4l2_rds_create false) c7bs).handle.rds_af.af.length ≤
      min MAX_AF_CNT (rdsRun (v4l2_rds_create false) c7bs).handle.rds_af.announced_af) := by
  decide

theorem add_af_to_list_spec (a : RdsAfSet) (f : Nat) (v : Bool) :
    (rds_add_af_to_list a f v).2.announced_af = a.announced_af ∧
    ((rds_add_af_to_list a f v).2.af = a.af ∨
     ∃ x, (rds_add_af_to_list a f v).2.af = a.af ++ [x] ∧ x ∉ a.af ∧
       a.af.length < MAX_AF_CNT) := by
  simp only [rds_add_af_to_list, MAX_AF_CNT]
  split_ifs <;>
    first
    | exact ⟨rfl, Or.inl rfl⟩
    | exact ⟨rfl, Or.inr ⟨_, rfl, by assumption, by omega⟩⟩

theorem afok_add_af_to_list {a : RdsAfSet} (h : AfOk a.af) (f : Nat) (v : Bool) :
    AfOk (rds_add_af_to_list a f v).2.af := by
  obtain ⟨-, hc | ⟨x, hres, hx, hlen⟩⟩ := add_af_to_list_spec a f v
  · exact ⟨by rw [hc]; exact h.1, by rw [hc]; exact h.2⟩
  · refine ⟨?_, ?_⟩
    · rw [hres]
      simp [List.nodup_append, h.1, hx]
    · rw [hres]
      simp only [List.length_append, List.length_singleton]
      simp only [MAX_AF_CNT] at hlen ⊢
      omega

theorem afok_add_af {s : RdsPrivateState} (h : AfOk s.handle.rds_af.af) :
    AfOk (rds_add_af s).2.handle.rds_af.af := by
  simp only [rds_add_af]
  split_ifs <;>
    (repeat first
      | exact h
      | apply afok_add_af_to_list)

theorem afok_group0 {s : RdsPrivateState} (h : AfOk s.handle.rds_af.af) :
    AfOk (rds_decode_group0 s).1.handle.rds_af.af := by
  simp only [rds_decode_group0, rds_decode_group0_af]
  set t := rds_decode_group0_di (rds_decode_group0_ps (rds_decode_group0_flags s)) with ht
  have hat : t.1.handle.rds_af = s.handle.rds_af := by simp [ht]
  split_ifs with hv h2
  · exact afok_add_af (by rw [hat]; exact h)
  · exact afok_add_af (by rw [hat]; exact h)
  · show AfOk t.1.handle.rds_af.af
    rw [hat]; exact h

theorem afok_decode_group {s : RdsPrivateState} (h : AfOk s.handle.rds_af.af) :
    AfOk (rds_decode_group s).1.handle.rds_af.af := by
  simp only [rds_decode_group]
  split_ifs with h0
  case pos => exact afok_group0 h
  all_goals
    first
    | (rw [g1_af]; exact h)
    | (rw [g2_af]; exact h)
    | (rw [g3_af]; exact h)
    | (rw [g4_af]; exact h)
    | (rw [g8_af]; exact h)
    | (rw [g10_af]; exact h)
    | exact h

theorem afok_complete {s : RdsPrivateState} (h : AfOk s.handle.rds_af.af) :
    AfOk (rds_complete_group s).1.handle.rds_af.af := by
  simp only [rds_complete_group, decode_c_eq, decode_d_eq]
  apply afok_decode_group
  simpa using h

theorem afok_add {s : RdsPrivateState} (b : RdsData) (h : AfOk s.handle.rds_af.af) :
    AfOk (v4l2_rds_add s b).1.handle.rds_af.af := by
  simp only [v4l2_rds_add, block_id_norm]
  cases hds : s.decode_state <;> simp only [hds] <;> split_ifs <;>
    first
    | exact h
    | exact afok_complete h

theorem afok_reset (s : RdsPrivateState) (rs : Bool) :
    AfOk (v4l2_rds_reset s rs).handle.rds_af.af := by
  unfold AfOk v4l2_rds_reset
  split_ifs <;> simp [zeroPrivateState, zeroV4l2Rds, zeroRdsAfSet, MAX_AF_CNT]

theorem reachable_afok {s : RdsPrivateState} (h : RdsReachable s) :
    AfOk s.handle.rds_af.af := by
  induction h with
  | create is_rbds =>
    exact ⟨by simp [v4l2_rds_create, zeroPrivateState, zeroV4l2Rds, zeroRdsAfSet],
      by simp [v4l2_rds_create, zeroPrivateState, zeroV4l2Rds, zeroRdsAfSet, MAX_AF_CNT]⟩
  | add b hs ih => exact afok_add b ih
  | reset rs hs ih => exact afok_reset _ rs

theorem rdsRun_reachable {s : RdsPrivateState} (bs : List RdsData) (h : RdsReachable s) :
    RdsReachable (rdsRun s bs) := by
  induction bs generalizing s with
  | nil => simpa using h
  | cons b rest ih => rw [rdsRun_cons]; exact ih (RdsReachable.add b h)

/-- C7 (amended): the AF set never holds two equal frequencies and never
exceeds MAX_AF entries, for every input block sequence. -/
theorem claim_C7 (is_rbds : Bool) (bs : List RdsData) :
    ((rdsRun (v4l2_rds_create is_rbds) bs).handle.rds_af.af).Nodup ∧
    (rdsRun (v4l2_rds_create is_rbds) bs).handle.rds_af.af.length ≤ MAX_AF_CNT :=
  reachable_afok (rdsRun_reachable bs (RdsReachable.create is_rbds))
